import Mathlib

/-!
Formal model of the catalog-resolution and property-mapping core of a
media collection manager (game/anime/book tracker backed by a Notion-like
typed-property store).  Each definition is a shallow embedding of the
corresponding Python function; network I/O is abstracted as explicit
function parameters (`fetch`, `head`, ...), and Python `dict` responses
are modelled as structures with `Option` fields for possibly-missing keys.
Python truthiness (`if x:`) is modelled explicitly: `None`, `0`, `""` and
empty lists are falsy.
-/

set_option autoImplicit false

namespace GameTracker

/-! ## Generic string helpers (models of Python `str` methods) -/

/-- Model of Python `str.lower` for the repertoire used by the code
(ASCII status values); `Char.toLower` lowers exactly the ASCII letters. -/
def lowerAscii (s : String) : String := String.mk (s.data.map Char.toLower)

/-- Model of Python `s.startswith(pat)`. -/
def strStartsWith (s pat : String) : Bool := pat.data.isPrefixOf s.data

/-- Model of Python slicing `s[n:]` (character-based). -/
def strDrop (s : String) (n : Nat) : String := String.mk (s.data.drop n)

/-- Model of Python `str.strip()` (drop surrounding whitespace). -/
def pyStrip (s : String) : String :=
  String.mk (((s.data.dropWhile Char.isWhitespace).reverse.dropWhile
    Char.isWhitespace).reverse)

/-- Worker for `strSplitOn`; `fuel` bounds the steps (one character is
consumed per step, keeping the recursion structural). -/
def splitOnAux (sep : List Char) : Nat → List Char → List Char → List (List Char)
  | _, acc, [] => [acc.reverse]
  | 0, acc, rest => [acc.reverse ++ rest]
  | Nat.succ fuel, acc, c :: t =>
    if sep.isPrefixOf (c :: t) ∧ 0 < sep.length then
      acc.reverse :: splitOnAux sep fuel [] (t.drop (sep.length - 1))
    else
      splitOnAux sep fuel (c :: acc) t

/-- Model of Python `s.split(sep)` (for a non-empty separator). -/
def strSplitOn (s sep : String) : List String :=
  (splitOnAux sep.data s.data.length [] s.data).map String.mk

/-- Decimal digits to a natural number. -/
def digitsToNat (ds : List Char) : Nat :=
  ds.foldl (fun n c => n * 10 + (c.toNat - 48)) 0

/-- Model of Python `int(s)` for optionally-negative decimal literals
(`none` models the raised `ValueError`). -/
def parseInt (s : String) : Option Int :=
  match s.data with
  | [] => none
  | '-' :: ds =>
    if ds ≠ [] ∧ ds.all Char.isDigit then some (-(Int.ofNat (digitsToNat ds)))
    else none
  | ds =>
    if ds.all Char.isDigit then some (Int.ofNat (digitsToNat ds)) else none

/-- Model of Python `int(s)` for all-digit strings. -/
def parseNat (s : String) : Option Nat :=
  if s.data ≠ [] ∧ s.data.all Char.isDigit then some (digitsToNat s.data)
  else none

/-- Substring containment over char lists, modelling Python `needle in hay`. -/
def listContainsSub (needle : List Char) : List Char → Bool
  | [] => needle.isEmpty
  | c :: t => needle.isPrefixOf (c :: t) || listContainsSub needle t

/-- Model of Python `needle in hay` for strings. -/
def strContains (hay needle : String) : Bool :=
  listContainsSub needle.data hay.data

/-- Model of Python `str.replace pat rep` (replace all non-overlapping
occurrences, left to right).  `fuel` bounds the number of steps; every
step consumes at least one character, so `fuel = l.length` computes the
full replacement (fuel keeps the recursion structural, hence
kernel-reducible). -/
def replaceAux (pat rep : List Char) : Nat → List Char → List Char
  | _, [] => []
  | 0, l => l
  | Nat.succ fuel, c :: t =>
    if pat.isPrefixOf (c :: t) ∧ 0 < pat.length then
      rep ++ replaceAux pat rep fuel (t.drop (pat.length - 1))
    else
      c :: replaceAux pat rep fuel t

/-- Model of Python `s.replace(pat, rep)`. -/
def strReplace (s pat rep : String) : String :=
  String.mk (replaceAux pat.data rep.data s.data.length s.data)

/-! ## Python truthiness helpers -/

/-- Truthiness of an optional string (`None` and `""` are falsy). -/
def optStrTruthy : Option String → Bool
  | none => false
  | some s => s ≠ ""

/-- Truthiness of an optional integer (`None` and `0` are falsy). -/
def optIntTruthy : Option Int → Bool
  | none => false
  | some n => n ≠ 0

/-- Pass an optional string through a Python `if x:` guard: the value
survives only when truthy. -/
def truthyOpt : Option String → Option String
  | none => none
  | some s => if s = "" then none else some s

/-- A Python argument that may be either a plain string or a list of
strings (the code dispatches on `isinstance(x, list)`). -/
inductive PyStrList where
  | str (s : String)
  | list (l : List String)
deriving DecidableEq, Repr

/-! ## Typed store properties (`NotionService` serialization model)

A property value as written to / read from the store.  `title` and
`richText` carry the list of rich-text parts (the store echoes the
written `text.content` back as `plain_text`). -/

inductive PropValue where
  | title (parts : List String)
  | richText (parts : List String)
  | number (n : Int)
  | select (name : String)
  | multiSelect (names : List String)
  | url (href : String)
deriving DecidableEq, Repr

/-- A page-creation request: the property map plus the page-level
external icon/cover image slots. -/
structure PageData where
  properties : List (String × PropValue)
  icon : Option String
  cover : Option String
deriving DecidableEq, Repr

/-- The status-to-property mapping shared by `add_game`, `add_anime`,
`add_book` and `update_game`: the case-insensitive sentinel `"no status"`
clears the multi-select, everything else becomes a singleton. -/
def statusPropValue (status : String) : PropValue :=
  if lowerAscii status = "no status" then PropValue.multiSelect []
  else PropValue.multiSelect [status]

/-- `NotionService.add_game`.  `toYear` stands for the
`datetime.fromtimestamp(ts).year` conversion of the host environment. -/
def add_game (toYear : Int → Int) (name : String)
    (icon_url poster_url : Option String) (release_timestamp : Option Int)
    (status platform : Option String) : PageData :=
  let props := [("Name", PropValue.title [name])]
  let props := props ++
    (match release_timestamp with
     | some ts => if ts ≠ 0 then [("Wydano", PropValue.number (toYear ts))] else []
     | none => [])
  let props := props ++
    (match status with
     | some s => if s ≠ "" then [("Status", statusPropValue s)] else []
     | none => [])
  let props := props ++
    (match platform with
     | some p => if p ≠ "" then [("Platforma", PropValue.select p)] else []
     | none => [])
  { properties := props
    icon := truthyOpt icon_url
    cover := truthyOpt poster_url }

/-- The airing-status normalization inside `add_anime`. -/
def airingValue (a : String) : String :=
  if lowerAscii a = "airing" ∨ lowerAscii a = "currently airing" ∨
     lowerAscii a = "not yet aired" then "AIRING" else "ENDED"

/-- `NotionService.add_anime`. -/
def add_anime (name : String) (icon_url poster_url : Option String)
    (release_year : Option Int) (status : Option String)
    (studio : Option PyStrList) (episodes seasons : Option Int)
    (airing_status : Option String)
    (synopsis mal_url anidb_url : Option String) : PageData :=
  let props := [("Name", PropValue.title [name])]
  let props := props ++
    (match release_year with
     | some y => if y ≠ 0 then [("Wydano", PropValue.number y)] else []
     | none => [])
  let props := props ++
    (match status with
     | some s => if s ≠ "" then [("Status", statusPropValue s)] else []
     | none => [])
  let props := props ++
    (match studio with
     | some (.list l) => if l ≠ [] then [("Studio", PropValue.multiSelect l)] else []
     | some (.str s) => if s ≠ "" then [("Studio", PropValue.multiSelect [s])] else []
     | none => [])
  let props := props ++
    (match episodes with
     | some e => [("Episodes", PropValue.number e)]
     | none => [])
  let props := props ++
    (match seasons with
     | some sn => [("Seasons", PropValue.number sn)]
     | none => [])
  let props := props ++
    (match airing_status with
     | some a => [("Airing", PropValue.multiSelect [airingValue a])]
     | none => [])
  let props := props ++
    (match synopsis with
     | some sy => if sy ≠ "" then [("Synopsis", PropValue.richText [sy])] else []
     | none => [])
  let props := props ++
    (match mal_url with
     | some u => if u ≠ "" then [("MAL", PropValue.url u)] else []
     | none => [])
  let props := props ++
    (match anidb_url with
     | some u => if u ≠ "" then [("AniDB", PropValue.url u)] else []
     | none => [])
  { properties := props
    icon := truthyOpt icon_url
    cover := truthyOpt poster_url }

/-- A `published_date` argument of `add_book`: either already an int or a
date string such as `"2023-05-15"`. -/
inductive PubDate where
  | int (n : Int)
  | str (s : String)
deriving DecidableEq, Repr

/-- Truthiness of a `published_date` argument. -/
def pubDateTruthy : PubDate → Bool
  | .int n => n ≠ 0
  | .str s => s ≠ ""

/-- Year extraction from a `published_date` value
(`int(str(d).split('-')[0].strip())`, skipped when the conversion fails). -/
def bookYear : PubDate → Option Int
  | .int n => some n
  | .str s => parseInt (pyStrip ((strSplitOn s "-").headD ""))

/-- `NotionService.add_book`. -/
def add_book (title : String) (authors : Option PyStrList)
    (icon_url poster_url : Option String) (published_date : Option PubDate)
    (status format_type : Option String) (page_count : Option Int)
    (publisher description : Option String) (categories : Option PyStrList)
    (isbn info_link : Option String) : PageData :=
  let props := [("Name", PropValue.title [title])]
  let props := props ++
    (match authors with
     | some (.list l) => if l ≠ [] then [("Authors", PropValue.multiSelect l)] else []
     | some (.str s) =>
       if s ≠ "" then
         [("Authors", PropValue.multiSelect
            (((strSplitOn s ",").map pyStrip).filter (fun a => a ≠ "")))]
       else []
     | none => [])
  let props := props ++
    (match published_date with
     | some pd =>
       if pubDateTruthy pd then
         match bookYear pd with
         | some y => [("Published", PropValue.number y)]
         | none => []
       else []
     | none => [])
  let props := props ++
    (match status with
     | some s => if s ≠ "" then [("Status", statusPropValue s)] else []
     | none => [])
  let props := props ++
    (match format_type with
     | some f => if f ≠ "" then [("Format", PropValue.select f)] else []
     | none => [])
  let props := props ++
    (match page_count with
     | some pc => [("Pages", PropValue.number pc)]
     | none => [])
  let props := props ++
    (match publisher with
     | some p => if p ≠ "" then [("Publisher", PropValue.richText [p])] else []
     | none => [])
  let props := props ++
    (match description with
     | some d => if d ≠ "" then [("Description", PropValue.richText [d])] else []
     | none => [])
  let props := props ++
    (match categories with
     | some (.list l) => if l ≠ [] then [("Categories", PropValue.multiSelect l)] else []
     | some (.str s) => if s ≠ "" then [("Categories", PropValue.multiSelect [s])] else []
     | none => [])
  let props := props ++
    (match isbn with
     | some i => if i ≠ "" then [("ISBN", PropValue.richText [i])] else []
     | none => [])
  let props := props ++
    (match info_link with
     | some i => if i ≠ "" then [("Info", PropValue.richText [i])] else []
     | none => [])
  { properties := props
    icon := truthyOpt icon_url
    cover := truthyOpt poster_url }

/-- An update-page request built by `update_game`; `properties` is `none`
when no property was included in the update at all. -/
structure UpdateData where
  page_id : String
  properties : Option (List (String × PropValue))
  icon : Option String
  cover : Option String
deriving DecidableEq, Repr

/-- `NotionService.update_game`: only supplied (and, for `name`/`year`,
truthy) arguments contribute a property; `status`/`platform` use an
`is not None` test. -/
def update_game (page_id : String) (name : Option String)
    (release_year : Option Int)
    (icon_url poster_url status platform : Option String) : UpdateData :=
  let props : List (String × PropValue) :=
    (match name with
     | some n => if n ≠ "" then [("Name", PropValue.title [n])] else []
     | none => [])
  let props := props ++
    (match release_year with
     | some y => if y ≠ 0 then [("Wydano", PropValue.number y)] else []
     | none => [])
  let props := props ++
    (match status with
     | some s => [("Status", statusPropValue s)]
     | none => [])
  let props := props ++
    (match platform with
     | some p => [("Platforma", PropValue.select p)]
     | none => [])
  { page_id := page_id
    properties := if props ≠ [] then some props else none
    icon := truthyOpt icon_url
    cover := truthyOpt poster_url }

/-- Property lookup in an update request (`none` when the property map
was omitted entirely). -/
def updLookup (u : UpdateData) (k : String) : Option PropValue :=
  match u.properties with
  | none => none
  | some ps => ps.lookup k

/-! ## Deserialization (`list_games` / `get_game` page processing) -/

/-- The per-page game record extracted by `list_games` / `get_game`. -/
structure GameData where
  name : Option String
  release_year : Option Int
  status : Option String
  platform : Option String
  cover_url : Option String
  icon_url : Option String
deriving DecidableEq, Repr

/-- The per-page extraction loop body of `NotionService.list_games`
(reads `Name`, `Wydano`, `Status`, `Platforma` and the external
cover/icon slots). -/
def list_games_extract (p : PageData) : GameData :=
  { name :=
      match p.properties.lookup "Name" with
      | some (PropValue.title parts) =>
        if parts ≠ [] then some (String.join parts) else none
      | _ => none
    release_year :=
      match p.properties.lookup "Wydano" with
      | some (PropValue.number n) => some n
      | _ => none
    status :=
      match p.properties.lookup "Status" with
      | some (PropValue.multiSelect (n :: _)) => some n
      | _ => none
    platform :=
      match p.properties.lookup "Platforma" with
      | some (PropValue.select n) => some n
      | _ => none
    cover_url := p.cover
    icon_url := p.icon }

/-- The extraction performed by `NotionService.get_game`: identical to
`list_games` except that it never reads the `Platforma` property. -/
def get_game_extract (p : PageData) : GameData :=
  { name :=
      match p.properties.lookup "Name" with
      | some (PropValue.title parts) =>
        if parts ≠ [] then some (String.join parts) else none
      | _ => none
    release_year :=
      match p.properties.lookup "Wydano" with
      | some (PropValue.number n) => some n
      | _ => none
    status :=
      match p.properties.lookup "Status" with
      | some (PropValue.multiSelect (n :: _)) => some n
      | _ => none
    platform := none
    cover_url := p.cover
    icon_url := p.icon }

/-! ## Store identifier extraction (`NotionService._clean_database_id`) -/

/-- The `path` component of `urlparse` for an `https://` URL: everything
from the first `/` after the host, with the query (`?...`) and fragment
(`#...`) removed. -/
def urlPath (u : String) : String :=
  let afterScheme := strDrop u 8
  let beforeQuery := String.mk
    (afterScheme.data.takeWhile (fun c => c ≠ '?' ∧ c ≠ '#'))
  String.mk (beforeQuery.data.dropWhile (fun c => c ≠ '/'))

/-- Python `s.rstrip('/')`. -/
def rstripSlash (s : String) : String :=
  String.mk (s.data.reverse.dropWhile (fun c => c = '/')).reverse

/-- Python slicing `s[:n]`. -/
def strTake (s : String) (n : Nat) : String := String.mk (s.data.take n)

/-- `NotionService._clean_database_id`: URL-or-raw-id extraction, hyphen
stripping and truncation to the 32-character Notion id length.  Returns
`none` for a falsy (empty) input. -/
def clean_database_id (database_id : String) : Option String :=
  if database_id = "" then none
  else
    let id1 :=
      if strStartsWith database_id "https://" then
        let path := urlPath database_id
        let lastPart := ((strSplitOn (rstripSlash path) "/").getLastD "")
        if lastPart.data.contains '-' then (strSplitOn lastPart "-").getLastD ""
        else lastPart
      else database_id
    let id2 := strReplace id1 "-" ""
    some (if id2.length > 32 then strTake id2 32 else id2)

/-! ## Asset existence verification (`OpenLibraryService.check_cover_exists`)

The HEAD probe is abstracted as a function `head : String → Option HeadResp`
where `none` models any exception (network error, the 2-second timeout,
or a malformed `Content-Length` header). -/

/-- Outcome of a successful HEAD request: HTTP status and the declared
`Content-Length` (absent header reads as `0`). -/
structure HeadResp where
  status : Nat
  contentLength : Option Nat
deriving DecidableEq, Repr

/-- `OpenLibraryService.check_cover_exists`: accept only a 200 response
whose declared content length exceeds 1000 bytes; falsy URLs and
exceptions yield `false`. -/
def check_cover_exists (head : String → Option HeadResp) (url : String) : Bool :=
  if url = "" then false
  else
    match head url with
    | none => false
    | some r => r.status = 200 ∧ r.contentLength.getD 0 > 1000

/-! ## OpenLibrary search (`OpenLibraryService.search_book`) -/

/-- One raw document of an OpenLibrary `search.json` response, with the
fields the code reads (`Option` marks a possibly-missing key). -/
structure SearchDoc where
  key : Option String
  title : Option String
  author_name : Option (List String)
  first_publish_year : Option Int
  cover_i : Option Int
  isbn : Option (List String)
  language : Option (List String)
  publisher : Option (List String)
  edition_count : Option Int
deriving DecidableEq, Repr

/-- The Polish diacritics scanned for in titles. -/
def polishChars : List Char := "ąćęłńóśźżĄĆĘŁŃÓŚŹŻ".data

/-- `any(c in title for c in "ąćęłńóśźżĄĆĘŁŃÓŚŹŻ")`. -/
def hasPolishChars (title : String) : Bool :=
  polishChars.any (fun c => title.data.contains c)

/-- The publisher allow-list used as a locale signal. -/
def polishPublishers : List String :=
  ["Znak", "Albatros", "Rebis", "Muza", "Czarna Owca", "W.A.B.",
   "Wydawnictwo Literackie", "Prószyński", "Media Rodzina", "Amber",
   "Zysk", "Mag", "Insignis", "Fabryka Słów", "Sonia Draga"]

/-- Locale signal 1: a declared `"pol"` language tag. -/
def languageSignal (b : SearchDoc) : Bool :=
  match b.language with
  | some ls => ls.contains "pol"
  | none => false

/-- Locale signal 2: Polish diacritics in the title. -/
def titleSignal (b : SearchDoc) : Bool :=
  match b.title with
  | some t => hasPolishChars t
  | none => false

/-- Locale signal 3: a declared publisher matching the allow-list
(case-insensitive substring test). -/
def publisherSignal (b : SearchDoc) : Bool :=
  match b.publisher with
  | some pubs =>
    pubs.any (fun pub =>
      polishPublishers.any (fun p => strContains (lowerAscii pub) (lowerAscii p)))
  | none => false

/-- The `is_polish` classification of a raw search hit: any one of the
three signals suffices. -/
def isPolishDoc (b : SearchDoc) : Bool :=
  languageSignal b || titleSignal b || publisherSignal b

/-- `"cover_i" in book`. -/
def hasCoverKey (b : SearchDoc) : Bool := b.cover_i.isSome

/-- `Option Int` under a Python `if x:` guard (`None` and `0` falsy). -/
def coverIdTruthy : Option Int → Bool
  | none => false
  | some n => n ≠ 0

/-- Cover URL by internal cover id and size suffix. -/
def idCoverUrl (cid : Int) (size : String) : String :=
  "https://covers.openlibrary.org/b/id/" ++ toString cid ++ "-" ++ size ++ ".jpg"

/-- Cover URL by ISBN and size suffix. -/
def isbnCoverUrl (isbn : String) (size : String) : String :=
  "https://covers.openlibrary.org/b/isbn/" ++ isbn ++ "-" ++ size ++ ".jpg"

/-- Cover URL by OLID and size suffix. -/
def olidCoverUrl (bookId : String) (size : String) : String :=
  "https://covers.openlibrary.org/b/olid/OL" ++ bookId ++ "W-" ++ size ++ ".jpg"

/-- The small/medium/large cover URL dictionary keyed by internal id. -/
def idCoverUrls (cid : Int) : List (String × String) :=
  [("small", idCoverUrl cid "S"), ("medium", idCoverUrl cid "M"),
   ("large", idCoverUrl cid "L")]

/-- The small/medium/large cover URL dictionary keyed by ISBN. -/
def isbnCoverUrls (isbn : String) : List (String × String) :=
  [("small", isbnCoverUrl isbn "S"), ("medium", isbnCoverUrl isbn "M"),
   ("large", isbnCoverUrl isbn "L")]

/-- The small/medium/large cover URL dictionary keyed by OLID. -/
def olidCoverUrls (bookId : String) : List (String × String) :=
  [("small", olidCoverUrl bookId "S"), ("medium", olidCoverUrl bookId "M"),
   ("large", olidCoverUrl bookId "L")]

/-- `d.get(k, dflt)` over an association-list dictionary. -/
def lookupD (l : List (String × String)) (k dflt : String) : String :=
  match l.lookup k with
  | some v => v
  | none => dflt

/-- A processed search hit as returned by
`OpenLibraryService._process_search_result`. -/
structure BookResult where
  id : String
  title : String
  authors : List String
  first_publish_year : Option Int
  cover_id : Option Int
  isbn : List String
  languages : List String
  publishers : List String
  edition_count : Int
  cover_urls : List (String × String)
  cover_url : Option String
deriving DecidableEq, Repr

/-- `OpenLibraryService._process_search_result`: extract the summary
fields, then pick a cover URL — internal cover id first, ISBN-derived as
backup, and `none` when neither candidate passes the existence probe. -/
def process_search_result (head : String → Option HeadResp)
    (b : SearchDoc) : BookResult :=
  let r0 : BookResult :=
    { id := strReplace (b.key.getD "") "/works/" ""
      title := b.title.getD "Unknown Title"
      authors := b.author_name.getD []
      first_publish_year := b.first_publish_year
      cover_id := b.cover_i
      isbn := b.isbn.getD []
      languages := b.language.getD []
      publishers := b.publisher.getD []
      edition_count := b.edition_count.getD 0
      cover_urls := []
      cover_url := none }
  let r1 :=
    if coverIdTruthy r0.cover_id then
      { r0 with cover_urls := idCoverUrls (r0.cover_id.getD 0)
                cover_url := some (idCoverUrl (r0.cover_id.getD 0) "M") }
    else r0
  let r2 :=
    if (¬coverIdTruthy r1.cover_id ∨
        ¬check_cover_exists head (lookupD r1.cover_urls "medium" "")) ∧
       r1.isbn ≠ [] then
      match r1.isbn with
      | i :: _ =>
        if check_cover_exists head (isbnCoverUrl i "M") then
          { r1 with cover_urls := isbnCoverUrls i
                    cover_url := some (isbnCoverUrl i "M") }
        else r1
      | [] => r1
    else r1
  if ¬optStrTruthy r2.cover_url ∨
     ¬check_cover_exists head (r2.cover_url.getD "") then
    { r2 with cover_url := none }
  else r2

/-- The `" [PL]"` marker appended to locale-matching titles, guarded
against duplication. -/
def tagPL (r : BookResult) : BookResult :=
  if strContains r.title "[PL]" then r
  else { r with title := r.title ++ " [PL]" }

/-- The four-way bucket split of the raw hits (Polish/covered first). -/
def partitionDocs : List SearchDoc →
    List SearchDoc × List SearchDoc × List SearchDoc × List SearchDoc
  | [] => ([], [], [], [])
  | b :: rest =>
    let (p1, p2, p3, p4) := partitionDocs rest
    if isPolishDoc b then
      if hasCoverKey b then (b :: p1, p2, p3, p4) else (p1, b :: p2, p3, p4)
    else
      if hasCoverKey b then (p1, p2, b :: p3, p4) else (p1, p2, p3, b :: p4)

/-- The result assembly of `search_book` for a non-empty `docs` array:
tagged Polish hits with covers, tagged Polish hits without covers, other
hits with covers, then at most 10 other hits without covers. -/
def searchResultsOfDocs (head : String → Option HeadResp)
    (docs : List SearchDoc) : List BookResult :=
  let (p1, p2, p3, p4) := partitionDocs docs
  (p1.map (fun b => tagPL (process_search_result head b)))
    ++ (p2.map (fun b => tagPL (process_search_result head b)))
    ++ (p3.map (fun b => process_search_result head b))
    ++ ((p4.take 10).map (fun b => process_search_result head b))

/-- The `search_type` selector of the book adapters. -/
inductive SearchType where
  | title
  | author
  | isbn
  | any
  | combined
deriving DecidableEq, Repr

/-- An OpenLibrary search response: a transport/non-2xx/JSON failure
(`err`, caught as a `RequestException`), or a JSON body whose `docs`
array may be missing (`ok none`) or present. -/
inductive OLResp where
  | err
  | ok (docs : Option (List SearchDoc))
deriving DecidableEq, Repr

/-- One HTTP attempt of `OpenLibraryService.search_book`: a caught
request failure, a usable non-empty `docs` array, or an empty result
(missing or empty `docs`). -/
inductive OLAttempt where
  | failed
  | results (rs : List BookResult)
  | empty
deriving Repr

/-- Issue one search request and classify the response. -/
def ol_attempt (fetch : String → SearchType → Option String → OLResp)
    (head : String → Option HeadResp) (query : String) (stype : SearchType)
    (language : Option String) : OLAttempt :=
  match fetch query stype language with
  | OLResp.err => OLAttempt.failed
  | OLResp.ok docs? =>
    let docs := docs?.getD []
    if docs ≠ [] then OLAttempt.results (searchResultsOfDocs head docs)
    else OLAttempt.empty

/-- `OpenLibraryService.search_book`, instrumented with the list of
issued requests.  `fetch query searchType language` abstracts the HTTP
GET (the provider-specific query parameters are derived from exactly
these three values); the returned first component records every request
issued, in order.  With an empty result and a truthy language filter the
adapter retries once with the filter removed (never for ISBN searches). -/
def ol_search_book (fetch : String → SearchType → Option String → OLResp)
    (head : String → Option HeadResp) (query : String) (stype : SearchType) :
    Option String → List (String × SearchType × Option String) × List BookResult
  | some l =>
    match ol_attempt fetch head query stype (some l) with
    | OLAttempt.failed => ([(query, stype, some l)], [])
    | OLAttempt.results rs => ([(query, stype, some l)], rs)
    | OLAttempt.empty =>
      if l ≠ "" ∧ stype ≠ SearchType.isbn then
        let rest := ol_search_book fetch head query stype none
        ((query, stype, some l) :: rest.1, rest.2)
      else ([(query, stype, some l)], [])
  | none =>
    match ol_attempt fetch head query stype none with
    | OLAttempt.failed => ([(query, stype, none)], [])
    | OLAttempt.results rs => ([(query, stype, none)], rs)
    | OLAttempt.empty => ([(query, stype, none)], [])
termination_by language => if language.isSome then 1 else 0
decreasing_by simp

/-! ## Google Books search (`GoogleBooksService.search_book`) -/

/-- The query-string construction of the Google Books adapter. -/
def gbSearchQuery (query : String) : SearchType → String
  | SearchType.title => "intitle:" ++ query
  | SearchType.author => "inauthor:" ++ query
  | SearchType.isbn => "isbn:" ++ strReplace query "-" ""
  | _ => query

/-- A Google Books search response: transport/non-2xx/JSON failure, or a
JSON body whose `items` array may be missing (`ok none`) or present.
Items themselves are opaque to the adapter. -/
inductive GBResp (Item : Type) where
  | err
  | ok (items : Option (List Item))
deriving DecidableEq, Repr

/-- `GoogleBooksService.search_book`, instrumented with the issued
requests (search query string × language restriction).  A response that
merely lacks the `items` key triggers the one-shot language fallback; a
present `items` array is returned as-is, even when empty. -/
def gb_search_book {Item : Type}
    (fetch : String → Option String → GBResp Item)
    (query : String) (stype : SearchType) :
    Option String → List (String × Option String) × List Item
  | some l =>
    let sq := gbSearchQuery query stype
    match fetch sq (some l) with
    | GBResp.err => ([(sq, some l)], [])
    | GBResp.ok (some items) => ([(sq, some l)], items)
    | GBResp.ok none =>
      if l ≠ "" ∧ stype ≠ SearchType.isbn then
        let rest := gb_search_book fetch query stype none
        ((sq, some l) :: rest.1, rest.2)
      else ([(sq, some l)], [])
  | none =>
    let sq := gbSearchQuery query stype
    match fetch sq none with
    | GBResp.err => ([(sq, none)], [])
    | GBResp.ok (some items) => ([(sq, none)], items)
    | GBResp.ok none => ([(sq, none)], [])
termination_by language => if language.isSome then 1 else 0
decreasing_by simp

/-! ## Google Books detail hydration (`get_book_full_details`) -/

/-- One `industryIdentifiers` entry. -/
structure GBIdent where
  idType : Option String
  identifier : Option String
deriving DecidableEq, Repr

/-- The `volumeInfo` object of a Google Books volume. -/
structure GBVolumeInfo where
  title : Option String
  authors : Option (List String)
  publisher : Option String
  publishedDate : Option String
  description : Option String
  pageCount : Option Int
  categories : Option (List String)
  language : Option String
  previewLink : Option String
  infoLink : Option String
  imageLinks : Option (List (String × String))
  industryIdentifiers : Option (List GBIdent)
deriving DecidableEq, Repr

/-- The empty `volumeInfo` used when the key is missing. -/
def emptyVolumeInfo : GBVolumeInfo :=
  { title := none, authors := none, publisher := none, publishedDate := none
    description := none, pageCount := none, categories := none
    language := none, previewLink := none, infoLink := none
    imageLinks := none, industryIdentifiers := none }

/-- A Google Books volume response body. -/
structure GBVolume where
  volumeInfo : Option GBVolumeInfo
deriving DecidableEq, Repr

/-- The image-URL cleanup: force `https` and drop the `&zoom=1`
parameter. -/
def fixImgUrl (u : String) : String :=
  strReplace (if strStartsWith u "http://" then "https://" ++ strDrop u 7 else u)
    "&zoom=1" ""

/-- The fixed size-priority order used for image links. -/
def gbImagePriority : List String :=
  ["extraLarge", "large", "medium", "small", "thumbnail"]

/-- The comprehensive record built by
`GoogleBooksService.get_book_full_details`. -/
structure GBFullDetails where
  title : Option String
  authors : List String
  publisher : Option String
  published_date : Option String
  description : Option String
  page_count : Option Int
  categories : List String
  image_url : Option String
  language : Option String
  preview_link : Option String
  info_link : Option String
  isbn_13 : Option String
  isbn_10 : Option String
  image_urls : Option (List (String × String))
deriving DecidableEq, Repr

/-- `GoogleBooksService.get_book_full_details`: `none` exactly when the
primary volume request failed; otherwise a field-by-field extraction of
`volumeInfo` (the title is passed through unchanged, possibly absent). -/
def gb_full_details (book? : Option GBVolume) : Option GBFullDetails :=
  match book? with
  | none => none
  | some book =>
    let vi := book.volumeInfo.getD emptyVolumeInfo
    let image_urls : Option (List (String × String)) :=
      match vi.imageLinks with
      | some links =>
        some (gbImagePriority.foldl
          (fun acc t =>
            match links.lookup t with
            | some u => acc ++ [(t, fixImgUrl u)]
            | none => acc) [])
      | none => none
    let image_url : Option String :=
      match image_urls with
      | some ius => (gbImagePriority.filterMap (fun t => ius.lookup t)).head?
      | none => none
    let (isbn13, isbn10) : Option String × Option String :=
      match vi.industryIdentifiers with
      | some ids =>
        ids.foldl
          (fun acc i =>
            if i.idType = some "ISBN_13" then (i.identifier, acc.2)
            else if i.idType = some "ISBN_10" then (acc.1, i.identifier)
            else acc) (none, none)
      | none => (none, none)
    some
      { title := vi.title
        authors := vi.authors.getD []
        publisher := vi.publisher
        published_date := vi.publishedDate
        description := vi.description
        page_count := vi.pageCount
        categories := vi.categories.getD []
        image_url := image_url
        language := vi.language
        preview_link := vi.previewLink
        info_link := vi.infoLink
        isbn_13 := isbn13
        isbn_10 := isbn10
        image_urls := image_urls }

/-! ## OpenLibrary detail hydration (`OpenLibraryService.get_book_details`)

Network interactions are abstracted: `editionDetail` fetches the full
record of an edition key (`none` = caught request failure),
`authorFetch` fetches an author record, and `findPolish`/`directSearch`
return the raw search document that `find_polish_edition` /
`_direct_search_polish_book` would process (both helpers return either
`_process_search_result(doc)` for some document or `None`). -/

/-- A `languages` entry of an edition (`{"key": "/languages/pol"}`). -/
structure LangRef where
  key : Option String
deriving DecidableEq, Repr

/-- One edition record of a work. -/
structure OLEdition where
  key : Option String
  title : Option String
  languages : Option (List LangRef)
  covers : Option (List Int)
  isbn_13 : Option (List String)
  isbn_10 : Option (List String)
  publishers : Option (List String)
  number_of_pages : Option Int
deriving DecidableEq, Repr

/-- An author reference of a work; `key` is the author key when both
`author_ref["author"]` and its `"key"` are present. -/
structure AuthorRef where
  key : Option String
deriving DecidableEq, Repr

/-- A fetched author record. -/
structure AuthorData where
  name : Option String
deriving DecidableEq, Repr

/-- The work record of `works/{book_id}.json`; `description` merges the
dict-valued (`{"value": ...}`) and raw-string forms the code accepts. -/
structure OLWork where
  title : Option String
  description : Option String
  subjects : Option (List String)
  first_publish_date : Option String
  authors : Option (List AuthorRef)
  covers : Option (List Int)
deriving DecidableEq, Repr

/-- An edition's language-or-diacritics Polish test (inside
`get_book_details`). -/
def editionIsPolish (e : OLEdition) : Bool :=
  (match e.languages with
   | some ls =>
     ls.any (fun lr =>
       match lr.key with
       | some k => strContains k "/languages/pol"
       | none => false)
   | none => false)
  || (match e.title with
      | some t => hasPolishChars t
      | none => false)

/-- The hard-coded `"Bezbarwny Tsukuru Tazaki"` special case, inserted
at the front of the Polish edition list. -/
def editionIsSpecial (e : OLEdition) : Bool :=
  match e.title with
  | some t => strContains t "Bezbarwny Tsukuru Tazaki"
  | none => false

/-- The Polish-edition collection loop: special-cased titles are
inserted at the front of the accumulator, other Polish editions appended
at the back. -/
def collectPolishEditions (es : List OLEdition) : List OLEdition :=
  es.foldl
    (fun acc e =>
      if editionIsSpecial e then e :: acc
      else if editionIsPolish e then acc ++ [e]
      else acc) []

/-- `"covers" in e and e["covers"]`. -/
def editionCoversTruthy (e : OLEdition) : Bool :=
  match e.covers with
  | some (_ :: _) => true
  | _ => false

/-- Pick the best Polish edition: the first one carrying a cover, else
the first one. -/
def selectPolishEdition : List OLEdition → Option OLEdition
  | [] => none
  | e :: rest =>
    match (e :: rest).filter editionCoversTruthy with
    | f :: _ => some f
    | [] => some e

/-- The title/cover override taken from the selected Polish edition
(fetching its full record, degrading to the summary fields when that
fetch fails); editions without a `key` are ignored. -/
def polishOverride (editionDetail : String → Option OLEdition)
    (title0 : String) : Option OLEdition → String × Option Int
  | none => (title0, none)
  | some pe =>
    match pe.key with
    | none => (title0, none)
    | some k =>
      match editionDetail k with
      | some de =>
        ((match de.title with
          | some t => t
          | none => pe.title.getD title0),
         (match de.covers with
          | some (c :: _) => some c
          | _ =>
            match pe.covers with
            | some (c :: _) => some c
            | _ => none))
      | none =>
        (pe.title.getD title0,
         match pe.covers with
         | some (c :: _) => some c
         | _ => none)

/-- Model of Python `str.title()` restricted to alphabetic casing:
a letter is upper-cased after a non-letter and lower-cased otherwise. -/
def pyTitle (s : String) : String :=
  String.mk
    ((s.data.foldl
      (fun (acc : List Char × Bool) c =>
        let c' := if c.isAlpha then (if acc.2 then c.toLower else c.toUpper) else c
        (acc.1 ++ [c'], c.isAlpha)) ([], false)).1)

/-- The author resolution loop: fetch each referenced author record; on
a fetch failure derive a name by title-casing the trailing path segment
of the key. -/
def resolveAuthors (authorFetch : String → Option AuthorData)
    (refs : List AuthorRef) : List String :=
  refs.foldl
    (fun acc r =>
      match r.key with
      | none => acc
      | some k =>
        match authorFetch k with
        | some ad => acc ++ [ad.name.getD "Unknown Author"]
        | none =>
          acc ++ [pyTitle (strReplace ((strSplitOn k "/").getLastD "") "_" " ")])
    []

/-- ISBN extraction from the edition in use (`isbn_13` preferred over
`isbn_10`, key presence tested before truthiness). -/
def isbnOf (eu : OLEdition) : List String :=
  match eu.isbn_13 with
  | some l => l
  | none =>
    match eu.isbn_10 with
    | some l => l
    | none => []

/-- Language keys of the edition in use, reduced to their trailing path
segment. -/
def langsOf (eu : OLEdition) : List String :=
  match eu.languages with
  | some ls =>
    ls.foldl
      (fun acc lr =>
        match lr.key with
        | some k => acc ++ [(strSplitOn k "/").getLastD ""]
        | none => acc) []
  | none => []

/-- The cover candidate chain of `get_book_details` (large size):
internal cover id, then first ISBN, then OLID; each probed with
`check_cover_exists`, first accepted candidate kept, `none` when the
survivor fails the final probe. -/
def details_cover_chain (head : String → Option HeadResp) (bookId : String)
    (coverId : Option Int) (isbn : List String) :
    List (String × String) × Option String :=
  let (urls1, url1) :=
    if coverIdTruthy coverId then
      (idCoverUrls (coverId.getD 0), some (idCoverUrl (coverId.getD 0) "L"))
    else ([], (none : Option String))
  let (urls2, url2) :=
    if (¬coverIdTruthy coverId ∨
        ¬check_cover_exists head (lookupD urls1 "large" "")) ∧ isbn ≠ [] then
      match isbn with
      | i :: _ =>
        if check_cover_exists head (isbnCoverUrl i "L") then
          (isbnCoverUrls i, some (isbnCoverUrl i "L"))
        else (urls1, url1)
      | [] => (urls1, url1)
    else (urls1, url1)
  let (urls3, url3) :=
    if (¬optStrTruthy url2 ∨ ¬check_cover_exists head (url2.getD "")) ∧
       bookId ≠ "" then
      if check_cover_exists head (olidCoverUrl bookId "L") then
        (olidCoverUrls bookId, some (olidCoverUrl bookId "L"))
      else (urls2, url2)
    else (urls2, url2)
  let url4 :=
    if ¬optStrTruthy url3 ∨ ¬check_cover_exists head (url3.getD "") then none
    else url3
  (urls3, url4)

/-- The hydrated book record of `get_book_details`. -/
structure BookDetails where
  id : String
  title : String
  authors : List String
  description : Option String
  subjects : List String
  first_publish_year : Option String
  cover_id : Option Int
  isbn : List String
  publishers : List String
  page_count : Option Int
  languages : List String
  links : List (String × String)
  cover_urls : List (String × String)
  cover_url : Option String
deriving DecidableEq, Repr

/-- Recover a numeric cover id from a `/id/`-style cover URL
(`int(part) if part.isdigit() else None`). -/
def coverIdFromUrl (u : String) : Option Int :=
  let part := (strSplitOn ((strSplitOn u "/id/").getD 1 "") "-").getD 0 ""
  if part ≠ "" ∧ part.data.all Char.isDigit then (parseNat part).map Int.ofNat
  else none

/-- Install the cover of a Polish search hit into the hydrated record
(only when truthy; the cover id is recomputed only for `/id/` URLs). -/
def applySearchCover (r : BookDetails) (sr : BookResult) : BookDetails :=
  if optStrTruthy sr.cover_url then
    let r1 := { r with cover_url := sr.cover_url, cover_urls := sr.cover_urls }
    if strContains (sr.cover_url.getD "") "/id/" then
      { r1 with cover_id := coverIdFromUrl (sr.cover_url.getD "") }
    else r1
  else r

/-- The closing block of `get_book_details`: when no Polish edition was
found among the editions and at least one author resolved, look for a
Polish edition by direct search (the hard-coded Tsukuru Tazaki special
case first, then `find_polish_edition`), overriding the title and — when
one is present — the verified cover of the search hit. -/
def polishSearchOverride (head : String → Option HeadResp)
    (findPolish directSearch : String → Option String → Option SearchDoc)
    (work : OLWork) (polishEdition : Option OLEdition)
    (authors : List String) (base : BookDetails) : BookDetails :=
  if polishEdition = none ∧ authors ≠ [] then
    let originalTitle := work.title.getD ""
    let tsukuruHit :=
      if strContains originalTitle "Tsukuru Tazaki" ∨
         strContains originalTitle "多崎つくる" then
        (directSearch "Bezbarwny Tsukuru Tazaki i lata jego pielgrzymstwa"
          (some "Murakami")).map (process_search_result head)
      else none
    match tsukuruHit with
    | some ds => applySearchCover { base with title := ds.title } ds
    | none =>
      match (findPolish originalTitle authors.head?).map
          (process_search_result head) with
      | some pb => applySearchCover { base with title := pb.title } pb
      | none => base
  else base

/-- The body of `get_book_details` once the work and editions requests
have both succeeded (every path of the body returns a record). -/
def get_book_details_core (editionDetail : String → Option OLEdition)
    (authorFetch : String → Option AuthorData)
    (head : String → Option HeadResp)
    (findPolish : String → Option String → Option SearchDoc)
    (directSearch : String → Option String → Option SearchDoc)
    (bookId : String) (work : OLWork) (entries : List OLEdition) :
    BookDetails :=
  let title0 := work.title.getD "Unknown Title"
  let polishEdition := selectPolishEdition (collectPolishEditions entries)
  let (title1, coverId1) := polishOverride editionDetail title0 polishEdition
  let authors := resolveAuthors authorFetch (work.authors.getD [])
  let coverId2 :=
    match work.covers with
    | some (c :: _) => some c
    | _ => coverId1
  let (isbn, publishers, pageCount, langs, coverId3) :=
    match entries with
    | [] => ([], [], none, [], coverId2)
    | e0 :: _ =>
      let eu := polishEdition.getD e0
      (isbnOf eu, eu.publishers.getD [], eu.number_of_pages, langsOf eu,
       if ¬coverIdTruthy coverId2 then
         match eu.covers with
         | some (c :: _) => some c
         | _ => coverId2
       else coverId2)
  let chain := details_cover_chain head bookId coverId3 isbn
  let base : BookDetails :=
    { id := bookId
      title := title1
      authors := authors
      description := work.description
      subjects := work.subjects.getD []
      first_publish_year := work.first_publish_date
      cover_id := coverId3
      isbn := isbn
      publishers := publishers
      page_count := pageCount
      languages := langs
      links := [("View on Open Library",
                 "https://openlibrary.org/works/" ++ bookId)]
      cover_urls := chain.1
      cover_url := chain.2 }
  polishSearchOverride head findPolish directSearch work polishEdition authors
    base

/-- `OpenLibraryService.get_book_details`: `none` exactly when the work
request or the editions request failed; every other outcome yields a
record. -/
def get_book_details (editionDetail : String → Option OLEdition)
    (authorFetch : String → Option AuthorData)
    (head : String → Option HeadResp)
    (findPolish : String → Option String → Option SearchDoc)
    (directSearch : String → Option String → Option SearchDoc)
    (bookId : String) (work? : Option OLWork)
    (editions? : Option (List OLEdition)) : Option BookDetails :=
  match work?, editions? with
  | some w, some es =>
    some (get_book_details_core editionDetail authorFetch head findPolish
      directSearch bookId w es)
  | _, _ => none

/-! ## Adapter error handling (`SteamGridDBService.search_game`,
`JikanService.search_anime`)

`Except TransportError body` models the outcome of
`requests.get` + `raise_for_status()` + `response.json()`: the `error`
side covers network failures, non-2xx statuses and JSON decode errors,
all of which surface as (subclasses of) `RequestException` and are
caught by the adapter. -/

/-- A caught transport-level failure. -/
inductive TransportError where
  | requestException
deriving DecidableEq, Repr

/-- A Python exception escaping the adapter. -/
inductive PyError where
  | keyError (key : String)
  | indexError
deriving DecidableEq, Repr

/-- The JSON body shape read by the SteamGridDB adapter. -/
structure SGDBBody (Item : Type) where
  success : Option Bool
  data : Option (List Item)
  errors : Option (List String)
deriving DecidableEq, Repr

/-- `SteamGridDBService.search_game` after the request: subscripting
`data["success"]` / `data["data"]` raises `KeyError` on a missing key,
and on a falsy `success` the code evaluates
`data.get('errors', ['Unknown error'])[0]`, which raises `IndexError`
when the `errors` key is present but holds an empty list; neither
exception is caught by the adapter (only `RequestException` is). -/
def sgdb_search_game {Item : Type}
    (resp : Except TransportError (SGDBBody Item)) :
    Except PyError (List Item) :=
  match resp with
  | Except.error _ => Except.ok []
  | Except.ok body =>
    match body.success with
    | none => Except.error (PyError.keyError "success")
    | some false =>
      match body.errors with
      | some [] => Except.error PyError.indexError
      | _ => Except.ok []
    | some true =>
      match body.data with
      | none => Except.error (PyError.keyError "data")
      | some items => Except.ok items

/-- The JSON body shape read by the Jikan adapter. -/
structure JikanBody (Item : Type) where
  data : Option (List Item)
deriving DecidableEq, Repr

/-- `JikanService.search_anime` after the request: a missing `data` key
is reported and converted to an empty list. -/
def jikan_search_anime {Item : Type}
    (resp : Except TransportError (JikanBody Item)) :
    Except PyError (List Item) :=
  match resp with
  | Except.error _ => Except.ok []
  | Except.ok body =>
    match body.data with
    | some items => Except.ok items
    | none => Except.ok []

/-! ## Helper lemmas -/

theorem join_singleton (s : String) : String.join [s] = s := rfl

theorem replaceAux_single (d : Char) :
    ∀ (fuel : Nat) (l : List Char), l.length ≤ fuel →
      replaceAux [d] [] fuel l = l.filter (fun c => c ≠ d) := by
  intro fuel
  induction fuel with
  | zero =>
    intro l hl
    cases l with
    | nil => rfl
    | cons c t => simp at hl
  | succ fuel ih =>
    intro l hl
    cases l with
    | nil => rfl
    | cons c t =>
      rw [replaceAux]
      by_cases hc : c = d
      · subst hc
        simp only [List.length_cons] at hl
        simp [List.isPrefixOf, ih t (by omega)]
      · have hd : ¬ d = c := fun h => hc h.symm
        simp only [List.length_cons] at hl
        simp [List.isPrefixOf, hd, hc, ih t (by omega), List.filter_cons]

theorem lookup_append_of_ne {β : Type} (k : String) (l₁ l₂ : List (String × β))
    (h : ∀ p ∈ l₁, p.1 ≠ k) : (l₁ ++ l₂).lookup k = l₂.lookup k := by
  induction l₁ with
  | nil => rfl
  | cons p t ih =>
    have hp : p.1 ≠ k := h p (List.mem_cons_self p t)
    have hk : (k == p.1) = false := by
      simp only [beq_eq_false_iff_ne, ne_eq]
      exact fun e => hp e.symm
    cases p with
    | mk a b =>
      simp only [List.cons_append, List.lookup]
      rw [hk]
      exact ih (fun q hq => h q (List.mem_cons_of_mem _ hq))

theorem lookup_eq_none_of_ne {β : Type} (k : String) (l : List (String × β))
    (h : ∀ p ∈ l, p.1 ≠ k) : l.lookup k = none := by
  have := lookup_append_of_ne k l [] h
  simpa using this

theorem strReplace_dash_data (id1 : String) :
    (strReplace id1 "-" "").data = id1.data.filter (fun c => c ≠ '-') := by
  show replaceAux ['-'] [] id1.data.length id1.data = _
  exact replaceAux_single '-' id1.data.length id1.data (Nat.le_refl _)

theorem truncate_branch_take (l : List Char) :
    (if l.length > 32 then l.take 32 else l) = l.take 32 := by
  split
  · rfl
  · exact (List.take_of_length_le (by omega)).symm

/-! ## C9: store identifier extraction -/

/-- Claim C9 counterexample: a raw 3-character id is returned as-is; the
cleaning function does not pad it to the store's 32-character id
length. -/
theorem c9_counterexample :
    clean_database_id "abc" = some "abc" ∧ ("abc" : String).length ≠ 32 :=
  ⟨rfl, by decide⟩

/-- Claim C9 (amended): for every non-empty input, the cleaning function
extracts the id (for URLs: the final path segment, after the last hyphen
when a title slug precedes it; otherwise the raw input), strips all
hyphens, and truncates to at most 32 characters when longer — shorter
ids are returned unpadded (the output is exactly the 32-character
prefix of the hyphen-stripped extracted id). -/
theorem c9_clean_database_id (s : String) (h : s ≠ "") :
    ∃ t, clean_database_id s = some t ∧
      t.data = ((if strStartsWith s "https://" then
          (if ((strSplitOn (rstripSlash (urlPath s)) "/").getLastD "").data.contains '-' then
            ((strSplitOn ((strSplitOn (rstripSlash (urlPath s)) "/").getLastD "") "-").getLastD "")
          else ((strSplitOn (rstripSlash (urlPath s)) "/").getLastD ""))
        else s).data.filter (fun c => c ≠ '-')).take 32 ∧
      (∀ c ∈ t.data, c ≠ '-') ∧
      t.length ≤ 32 := by
  unfold clean_database_id
  rw [if_neg h]
  set id1 := (if strStartsWith s "https://" then
      (if ((strSplitOn (rstripSlash (urlPath s)) "/").getLastD "").data.contains '-' then
        ((strSplitOn ((strSplitOn (rstripSlash (urlPath s)) "/").getLastD "") "-").getLastD "")
      else ((strSplitOn (rstripSlash (urlPath s)) "/").getLastD ""))
    else s) with hid1
  refine ⟨_, rfl, ?_, ?_, ?_⟩
  · show (if (strReplace id1 "-" "").length > 32 then
        strTake (strReplace id1 "-" "") 32 else strReplace id1 "-" "").data = _
    have hlen : (strReplace id1 "-" "").length = (strReplace id1 "-" "").data.length := rfl
    by_cases hc : (strReplace id1 "-" "").length > 32
    · rw [if_pos hc]
      show (strReplace id1 "-" "").data.take 32 = _
      rw [strReplace_dash_data]
    · rw [if_neg hc]
      have hc' : (id1.data.filter (fun c => c ≠ '-')).length ≤ 32 := by
        rw [hlen, strReplace_dash_data] at hc
        omega
      rw [strReplace_dash_data]
      exact (List.take_of_length_le hc').symm
  · intro c hc
    have hmem : c ∈ (strReplace id1 "-" "").data := by
      by_cases hb : (strReplace id1 "-" "").length > 32
      · rw [if_pos hb] at hc
        exact List.take_subset 32 _ hc
      · rw [if_neg hb] at hc
        exact hc
    rw [strReplace_dash_data] at hmem
    have := List.of_mem_filter hmem
    simpa using this
  · by_cases hb : (strReplace id1 "-" "").length > 32
    · rw [if_pos hb]
      show (strTake (strReplace id1 "-" "") 32).data.length ≤ 32
      simp [strTake]
    · rw [if_neg hb]
      omega

/-- Witness for C9 at a concrete dashed raw id. -/
theorem c9_witness :
    ("8a4b-12cd" : String) ≠ "" ∧
    (∃ t, clean_database_id "8a4b-12cd" = some t ∧
      t.data = ((if strStartsWith "8a4b-12cd" "https://" then
          (if ((strSplitOn (rstripSlash (urlPath "8a4b-12cd")) "/").getLastD "").data.contains '-' then
            ((strSplitOn ((strSplitOn (rstripSlash (urlPath "8a4b-12cd")) "/").getLastD "") "-").getLastD "")
          else ((strSplitOn (rstripSlash (urlPath "8a4b-12cd")) "/").getLastD ""))
        else "8a4b-12cd").data.filter (fun c => c ≠ '-')).take 32 ∧
      (∀ c ∈ t.data, c ≠ '-') ∧
      t.length ≤ 32) :=
  ⟨by decide, c9_clean_database_id "8a4b-12cd" (by decide)⟩

theorem lookup_if_seg {β : Type} (k a : String) (c : Prop) [Decidable c]
    (v : β) (rest : List (String × β)) (hne : (k == a) = false) :
    ((if c then [(a, v)] else []) ++ rest).lookup k = rest.lookup k := by
  split <;> simp [List.lookup, hne]

theorem lookup_if_seg' {β : Type} (k a : String) (c : Prop) [Decidable c]
    (v : β) (rest : List (String × β)) (hne : (k == a) = false) :
    ((if c then [] else [(a, v)]) ++ rest).lookup k = rest.lookup k := by
  split <;> simp [List.lookup, hne]

theorem lookup_pub_seg (k : String) (p : PubDate)
    (rest : List (String × PropValue)) (hne : (k == "Published") = false) :
    ((if pubDateTruthy p then
        (match bookYear p with
         | some y => [("Published", PropValue.number y)]
         | none => []) else []) ++ rest).lookup k = rest.lookup k := by
  split
  · rcases bookYear p with _ | y <;> simp [List.lookup, hne]
  · simp

/-! ## C4: the "no status" sentinel -/

/-- Claim C4: a status equal to `"no status"` under case-insensitive
comparison maps to an empty `MultiSelect` in the `Status` property —
clearing the field, never writing a literal tag — in `add_game`,
`add_anime`, `add_book` and `update_game` alike. -/
theorem c4_status_sentinel (s : String) (h : lowerAscii s = "no status") :
    (∀ toYear name icon poster ts platform,
      (add_game toYear name icon poster ts (some s) platform).properties.lookup "Status"
        = some (PropValue.multiSelect [])) ∧
    (∀ name icon poster ry studio eps seas air syn mal adb,
      (add_anime name icon poster ry (some s) studio eps seas air syn mal
        adb).properties.lookup "Status" = some (PropValue.multiSelect [])) ∧
    (∀ t authors icon poster pd fmt pc pub desc cats isbnArg info,
      (add_book t authors icon poster pd (some s) fmt pc pub desc cats isbnArg
        info).properties.lookup "Status" = some (PropValue.multiSelect [])) ∧
    (∀ pid nm ry icon poster plat,
      updLookup (update_game pid nm ry icon poster (some s) plat) "Status"
        = some (PropValue.multiSelect [])) := by
  have hs : s ≠ "" := by
    intro e
    subst e
    simp [lowerAscii] at h
  have hv : statusPropValue s = PropValue.multiSelect [] := by
    simp [statusPropValue, h]
  refine ⟨?_, ?_, ?_, ?_⟩
  · intro toYear name icon poster ts platform
    unfold add_game
    rcases ts with _ | t <;>
      simp [hs, hv, List.lookup, lookup_if_seg, lookup_if_seg']
  · intro name icon poster ry studio eps seas air syn mal adb
    unfold add_anime
    rcases ry with _ | y <;>
      simp [hs, hv, List.lookup, lookup_if_seg, lookup_if_seg']
  · intro t authors icon poster pd fmt pc pub desc cats isbnArg info
    unfold add_book
    rcases authors with _ | (⟨a⟩ | ⟨al⟩) <;> rcases pd with _ | p <;>
      simp [hs, hv, List.lookup, lookup_if_seg, lookup_if_seg', lookup_pub_seg]
  · intro pid nm ry icon poster plat
    unfold update_game updLookup
    rcases nm with _ | n <;> rcases ry with _ | y <;>
      simp [hs, hv, List.lookup, lookup_if_seg, lookup_if_seg']

/-- Witness for C4 at the concrete mixed-case status `"No STATUS"`. -/
theorem c4_witness :
    lowerAscii "No STATUS" = "no status" ∧
    (add_game (fun t => t) "Celeste" none none none (some "No STATUS")
      none).properties.lookup "Status" = some (PropValue.multiSelect []) := by
  refine ⟨by decide, ?_⟩
  exact (c4_status_sentinel "No STATUS" (by decide)).1 (fun t => t) "Celeste"
    none none none none

theorem lookup_if_singleton {β : Type} (k a : String) (c : Prop) [Decidable c]
    (v : β) (hne : (k == a) = false) :
    (if c then [(a, v)] else ([] : List (String × β))).lookup k = none := by
  split <;> simp [List.lookup, hne]

theorem lookup_if_singleton' {β : Type} (k a : String) (c : Prop) [Decidable c]
    (v : β) (hne : (k == a) = false) :
    (if c then ([] : List (String × β)) else [(a, v)]).lookup k = none := by
  split <;> simp [List.lookup, hne]

theorem updLookup_if (pid : String) (c : Prop) [Decidable c]
    (ps : List (String × PropValue)) (ic cv : Option String) (k : String) :
    updLookup
      { page_id := pid, properties := if c then some ps else none,
        icon := ic, cover := cv } k
      = if c then ps.lookup k else none := by
  by_cases hc : c <;> simp [updLookup, hc]

/-! ## C5: partial update frame -/

/-- Claim C5: an `update_game` argument left at its `None` default
contributes no entry to the property map (and no icon/cover slot); when
nothing is supplied the `properties` key is omitted from the update
request entirely.  In particular an absent year is omitted, never
written as zero. -/
theorem c5_partial_update (pid : String) (nm : Option String) (ry : Option Int)
    (icon poster status plat : Option String) :
    (nm = none →
      updLookup (update_game pid nm ry icon poster status plat) "Name" = none) ∧
    (ry = none →
      updLookup (update_game pid nm ry icon poster status plat) "Wydano" = none) ∧
    (status = none →
      updLookup (update_game pid nm ry icon poster status plat) "Status" = none) ∧
    (plat = none →
      updLookup (update_game pid nm ry icon poster status plat) "Platforma" = none) ∧
    (icon = none → (update_game pid nm ry icon poster status plat).icon = none) ∧
    (poster = none → (update_game pid nm ry icon poster status plat).cover = none) ∧
    (nm = none → ry = none → status = none → plat = none →
      (update_game pid nm ry icon poster status plat).properties = none) := by
  unfold update_game
  refine ⟨?_, ?_, ?_, ?_, ?_, ?_, ?_⟩
  · intro h
    subst h
    rcases ry with _ | y <;> rcases status with _ | st <;> rcases plat with _ | p <;>
      simp [updLookup, updLookup_if, List.lookup, lookup_if_seg, lookup_if_seg',
        lookup_if_singleton, lookup_if_singleton'] <;>
      (split_ifs <;> simp_all [List.lookup])
  · intro h
    subst h
    rcases nm with _ | n <;> rcases status with _ | st <;> rcases plat with _ | p <;>
      simp [updLookup, updLookup_if, List.lookup, lookup_if_seg, lookup_if_seg',
        lookup_if_singleton, lookup_if_singleton'] <;>
      (split_ifs <;> simp_all [List.lookup])
  · intro h
    subst h
    rcases nm with _ | n <;> rcases ry with _ | y <;> rcases plat with _ | p <;>
      simp [updLookup, updLookup_if, List.lookup, lookup_if_seg, lookup_if_seg',
        lookup_if_singleton, lookup_if_singleton'] <;>
      (split_ifs <;> simp_all [List.lookup])
  · intro h
    subst h
    rcases nm with _ | n <;> rcases ry with _ | y <;> rcases status with _ | st <;>
      simp [updLookup, updLookup_if, List.lookup, lookup_if_seg, lookup_if_seg',
        lookup_if_singleton, lookup_if_singleton'] <;>
      (split_ifs <;> simp_all [List.lookup])
  · intro h
    subst h
    simp [truthyOpt]
  · intro h
    subst h
    simp [truthyOpt]
  · intro h1 h2 h3 h4
    subst h1; subst h2; subst h3; subst h4
    simp

/-- Witness for C5: an update call with every argument omitted carries
no properties at all. -/
theorem c5_witness :
    updLookup (update_game "p1" none none none none none none) "Name" = none ∧
    updLookup (update_game "p1" none none none none none none) "Wydano" = none ∧
    updLookup (update_game "p1" none none none none none none) "Status" = none ∧
    updLookup (update_game "p1" none none none none none none) "Platforma" = none ∧
    (update_game "p1" none none none none none none).icon = none ∧
    (update_game "p1" none none none none none none).cover = none ∧
    (update_game "p1" none none none none none none).properties = none := by
  obtain ⟨h1, h2, h3, h4, h5, h6, h7⟩ :=
    c5_partial_update "p1" none none none none none none
  exact ⟨h1 rfl, h2 rfl, h3 rfl, h4 rfl, h5 rfl, h6 rfl, h7 rfl rfl rfl rfl⟩

/-! ## C1: round-trip mapping -/

/-- Claim C1 counterexample: a page created with a platform stores a
`Platforma` select, `list_games` reads it back, but `get_game` never
extracts it — so the round trip through `get_game` loses the
schema-declared platform field. -/
theorem c1_counterexample :
    (add_game (fun t => t) "Celeste" none none none none
      (some "PC")).properties.lookup "Platforma" = some (PropValue.select "PC") ∧
    (get_game_extract (add_game (fun t => t) "Celeste" none none none none
      (some "PC"))).platform = none ∧
    (list_games_extract (add_game (fun t => t) "Celeste" none none none none
      (some "PC"))).platform = some "PC" :=
  ⟨rfl, rfl, rfl⟩

/-- Claim C1 (amended): for every game item whose optional string fields
are absent or non-empty, whose timestamp is absent or non-zero, and
whose status is not the "no status" sentinel, serializing with
`add_game` and deserializing with `list_games` reproduces name, release
year, status, platform, cover and icon exactly; deserializing the same
page with `get_game` reproduces all of these except platform, which
`get_game` never extracts. -/
theorem c1_round_trip (toYear : Int → Int) (name : String)
    (icon poster : Option String) (ts : Option Int)
    (status platform : Option String)
    (hts : ts ≠ some 0)
    (hstat : match status with
             | none => True
             | some s => s ≠ "" ∧ lowerAscii s ≠ "no status")
    (hplat : platform ≠ some "")
    (hicon : icon ≠ some "")
    (hposter : poster ≠ some "") :
    list_games_extract (add_game toYear name icon poster ts status platform)
      = { name := some name, release_year := ts.map toYear, status := status,
          platform := platform, cover_url := poster, icon_url := icon } ∧
    get_game_extract (add_game toYear name icon poster ts status platform)
      = { name := some name, release_year := ts.map toYear, status := status,
          platform := none, cover_url := poster, icon_url := icon } := by
  unfold add_game list_games_extract get_game_extract
  rcases ts with _ | t <;> rcases status with _ | s <;>
    rcases platform with _ | p <;> rcases icon with _ | i <;>
    rcases poster with _ | po <;>
    simp_all [statusPropValue, truthyOpt, join_singleton, List.lookup,
      lookup_if_seg, lookup_if_seg', lookup_if_singleton, lookup_if_singleton']

/-- Witness for C1 at a fully-populated concrete game item. -/
theorem c1_witness :
    list_games_extract (add_game (fun _ => 2018) "Celeste" (some "https://i")
        (some "https://p") (some 1516867200) (some "Ukończone") (some "PC"))
      = { name := some "Celeste", release_year := some 2018,
          status := some "Ukończone", platform := some "PC",
          cover_url := some "https://p", icon_url := some "https://i" } ∧
    get_game_extract (add_game (fun _ => 2018) "Celeste" (some "https://i")
        (some "https://p") (some 1516867200) (some "Ukończone") (some "PC"))
      = { name := some "Celeste", release_year := some 2018,
          status := some "Ukończone", platform := none,
          cover_url := some "https://p", icon_url := some "https://i" } :=
  c1_round_trip (fun _ => 2018) "Celeste" (some "https://i") (some "https://p")
    (some 1516867200) (some "Ukończone") (some "PC") (by decide) (by decide)
    (by decide) (by decide) (by decide)

/-! ## C2: locale-biased bucket ordering -/

theorem partitionDocs_eq (docs : List SearchDoc) :
    partitionDocs docs =
      (docs.filter (fun b => isPolishDoc b && hasCoverKey b),
       docs.filter (fun b => isPolishDoc b && !hasCoverKey b),
       docs.filter (fun b => !isPolishDoc b && hasCoverKey b),
       docs.filter (fun b => !isPolishDoc b && !hasCoverKey b)) := by
  induction docs with
  | nil => rfl
  | cons b rest ih =>
    simp only [partitionDocs, ih, List.filter_cons]
    cases hp : isPolishDoc b <;> cases hc : hasCoverKey b <;> simp [hp, hc]

theorem searchResultsOfDocs_eq (head : String → Option HeadResp)
    (docs : List SearchDoc) :
    searchResultsOfDocs head docs =
      ((docs.filter (fun b => isPolishDoc b && hasCoverKey b)).map
        (fun b => tagPL (process_search_result head b)))
      ++ ((docs.filter (fun b => isPolishDoc b && !hasCoverKey b)).map
        (fun b => tagPL (process_search_result head b)))
      ++ ((docs.filter (fun b => !isPolishDoc b && hasCoverKey b)).map
        (fun b => process_search_result head b))
      ++ (((docs.filter (fun b => !isPolishDoc b && !hasCoverKey b)).take 10).map
        (fun b => process_search_result head b)) := by
  unfold searchResultsOfDocs
  rw [partitionDocs_eq]

/-- Claim C2: when a search response carries a non-empty `docs` array,
the returned list is exactly the concatenation of the four buckets —
locale hits with covers, locale hits without covers, other hits with
covers, other hits without covers capped at 10 — each bucket a filter of
the raw hits (hence preserving the provider's original order), where a
hit is locale-matching if its language tag, title diacritics or
publisher allow-list signal fires. -/
theorem c2_bucket_order (fetch : String → SearchType → Option String → OLResp)
    (head : String → Option HeadResp) (query : String) (stype : SearchType)
    (language : Option String) (docs : List SearchDoc)
    (hne : docs ≠ [])
    (hf : fetch query stype language = OLResp.ok (some docs)) :
    (ol_search_book fetch head query stype language).2 =
      ((docs.filter (fun b => isPolishDoc b && hasCoverKey b)).map
        (fun b => tagPL (process_search_result head b)))
      ++ ((docs.filter (fun b => isPolishDoc b && !hasCoverKey b)).map
        (fun b => tagPL (process_search_result head b)))
      ++ ((docs.filter (fun b => !isPolishDoc b && hasCoverKey b)).map
        (fun b => process_search_result head b))
      ++ (((docs.filter (fun b => !isPolishDoc b && !hasCoverKey b)).take 10).map
        (fun b => process_search_result head b)) := by
  rw [← searchResultsOfDocs_eq]
  have hatt : ol_attempt fetch head query stype language
      = OLAttempt.results (searchResultsOfDocs head docs) := by
    unfold ol_attempt
    rw [hf]
    simp [hne]
  rcases language with _ | lng <;>
    · unfold ol_search_book
      rw [hatt]

/-- Concrete fetch stub for the C2 witness: two raw hits, a Polish one
without a cover and an English one with a cover. -/
def c2DocPl : SearchDoc :=
  { key := some "/works/OL1W", title := some "Diuna", author_name := none
    first_publish_year := some 1965, cover_i := none, isbn := none
    language := some ["pol"], publisher := none, edition_count := none }

/-- Second C2 sample hit (non-locale, with cover). -/
def c2DocEn : SearchDoc :=
  { key := some "/works/OL2W", title := some "Dune Messiah", author_name := none
    first_publish_year := some 1969, cover_i := some 7, isbn := none
    language := some ["eng"], publisher := none, edition_count := none }

/-- C2 witness fetch: always returns the two sample hits. -/
def c2Fetch : String → SearchType → Option String → OLResp :=
  fun _ _ _ => OLResp.ok (some [c2DocPl, c2DocEn])

/-- C2 witness probe: every HEAD request fails. -/
def c2Head : String → Option HeadResp := fun _ => none

/-- Witness for C2: the English hit with a cover is ranked behind the
tagged Polish hit without one. -/
theorem c2_witness :
    (ol_search_book c2Fetch c2Head "Dune" SearchType.title (some "pol")).2 =
      ((([c2DocPl, c2DocEn].filter
          (fun b => isPolishDoc b && hasCoverKey b)).map
        (fun b => tagPL (process_search_result c2Head b)))
      ++ (([c2DocPl, c2DocEn].filter
          (fun b => isPolishDoc b && !hasCoverKey b)).map
        (fun b => tagPL (process_search_result c2Head b)))
      ++ (([c2DocPl, c2DocEn].filter
          (fun b => !isPolishDoc b && hasCoverKey b)).map
        (fun b => process_search_result c2Head b))
      ++ ((([c2DocPl, c2DocEn].filter
          (fun b => !isPolishDoc b && !hasCoverKey b)).take 10).map
        (fun b => process_search_result c2Head b))) ∧
    ((ol_search_book c2Fetch c2Head "Dune" SearchType.title (some "pol")).2).map
        (fun r => r.title) = ["Diuna [PL]", "Dune Messiah"] := by
  refine ⟨c2_bucket_order c2Fetch c2Head "Dune" SearchType.title (some "pol")
    [c2DocPl, c2DocEn] (by decide) rfl, ?_⟩
  rw [c2_bucket_order c2Fetch c2Head "Dune" SearchType.title (some "pol")
    [c2DocPl, c2DocEn] (by decide) rfl]
  decide

/-! ## C10: the " [PL]" locale marker -/

theorem listContainsSub_append_right (needle a b : List Char)
    (h : listContainsSub needle b = true) :
    listContainsSub needle (a ++ b) = true := by
  induction a with
  | nil => simpa
  | cons c t ih =>
    simp only [List.cons_append, listContainsSub]
    rw [show t.append b = t ++ b from rfl, ih]
    simp

theorem tagPL_contains (r : BookResult) :
    strContains (tagPL r).title "[PL]" = true := by
  unfold tagPL
  split
  · assumption
  · show strContains (r.title ++ " [PL]") "[PL]" = true
    unfold strContains
    rw [show (r.title ++ " [PL]").data = r.title.data ++ (" [PL]" : String).data
      from rfl]
    exact listContainsSub_append_right _ _ _ (by decide)

theorem tagPL_noop (r : BookResult) (h : strContains r.title "[PL]" = true) :
    tagPL r = r := by
  unfold tagPL
  rw [if_pos h]

/-- Claim C10: every result in the locale buckets is the `" [PL]"`-tagged
processed hit (and its title does contain the marker), the tagging is a
no-op when the title already contains `"[PL]"`, and results of non-locale
hits are returned as the untagged processed hit. -/
theorem c10_pl_marker (head : String → Option HeadResp) (docs : List SearchDoc) :
    (∀ r ∈ searchResultsOfDocs head docs,
      (∃ b ∈ docs, isPolishDoc b = true ∧
        r = tagPL (process_search_result head b) ∧
        strContains r.title "[PL]" = true) ∨
      (∃ b ∈ docs, isPolishDoc b = false ∧
        r = process_search_result head b)) ∧
    (∀ r : BookResult, strContains r.title "[PL]" = true → tagPL r = r) := by
  constructor
  · intro r hr
    rw [searchResultsOfDocs_eq] at hr
    simp only [List.mem_append, List.mem_map] at hr
    rcases hr with ((⟨b, hb, rfl⟩ | ⟨b, hb, rfl⟩) | ⟨b, hb, rfl⟩) | ⟨b, hb, rfl⟩
    · obtain ⟨hmem, hflag⟩ := List.mem_filter.mp hb
      rw [Bool.and_eq_true] at hflag
      exact Or.inl ⟨b, hmem, hflag.1, rfl, tagPL_contains _⟩
    · obtain ⟨hmem, hflag⟩ := List.mem_filter.mp hb
      rw [Bool.and_eq_true] at hflag
      exact Or.inl ⟨b, hmem, hflag.1, rfl, tagPL_contains _⟩
    · obtain ⟨hmem, hflag⟩ := List.mem_filter.mp hb
      rw [Bool.and_eq_true] at hflag
      have hnp : isPolishDoc b = false := by simpa using hflag.1
      exact Or.inr ⟨b, hmem, hnp, rfl⟩
    · obtain ⟨hmem, hflag⟩ := List.mem_filter.mp (List.take_subset 10 _ hb)
      rw [Bool.and_eq_true] at hflag
      have hnp : isPolishDoc b = false := by simpa using hflag.1
      exact Or.inr ⟨b, hmem, hnp, rfl⟩
  · exact fun r h => tagPL_noop r h

/-- C10 witness sample: a Polish hit without a cover. -/
def c10DocPl : SearchDoc :=
  { key := some "/works/OL3W", title := some "Wiedźmin", author_name := none
    first_publish_year := none, cover_i := none, isbn := none
    language := some ["pol"], publisher := none, edition_count := none }

/-- C10 witness sample: a Polish hit whose title already carries the
marker. -/
def c10DocTagged : SearchDoc :=
  { key := some "/works/OL4W", title := some "Zamek [PL]", author_name := none
    first_publish_year := none, cover_i := none, isbn := none
    language := some ["pol"], publisher := none, edition_count := none }

/-- C10 witness document list. -/
def c10Docs : List SearchDoc := [c10DocPl]

/-- C10 witness probe: every HEAD request fails. -/
def c10Head : String → Option HeadResp := fun _ => none

/-- Witness for C10: the single Polish hit comes back tagged, and
tagging an already-tagged title is a no-op. -/
theorem c10_witness :
    ((∃ b ∈ c10Docs, isPolishDoc b = true ∧
        tagPL (process_search_result c10Head c10DocPl)
          = tagPL (process_search_result c10Head b) ∧
        strContains (tagPL (process_search_result c10Head c10DocPl)).title "[PL]"
          = true) ∨
      (∃ b ∈ c10Docs, isPolishDoc b = false ∧
        tagPL (process_search_result c10Head c10DocPl)
          = process_search_result c10Head b)) ∧
    tagPL (process_search_result c10Head c10DocTagged)
      = process_search_result c10Head c10DocTagged :=
  ⟨(c10_pl_marker c10Head c10Docs).1
      (tagPL (process_search_result c10Head c10DocPl)) (by decide),
    (c10_pl_marker c10Head c10Docs).2
      (process_search_result c10Head c10DocTagged) (by decide)⟩

/-! ## C3: one-shot locale fallback -/

/-- C3 counterexample fetch: the provider responds with an explicit
empty `items` array. -/
def c3GbFetch : String → Option String → GBResp Unit :=
  fun _ _ => GBResp.ok (some [])

/-- Claim C3 counterexample: a Google Books response carrying an explicit
empty `items` array yields zero hits, yet the adapter issues no fallback
re-query — exactly one request is recorded and the empty list returned
as-is, contradicting the claim for this zero-hit locale-filtered
search. -/
theorem c3_counterexample :
    gb_search_book c3GbFetch "Dune" SearchType.title (some "pl")
      = ([("intitle:Dune", some "pl")], ([] : List Unit)) := by
  simp [gb_search_book, c3GbFetch, gbSearchQuery]

/-- Claim C3 (amended): for OpenLibrary, a locale-scoped search whose
response lacks a `docs` array or carries an empty one re-issues exactly
one identical query without the locale filter and surfaces that second
attempt's results; the unscoped attempt never recurses, and an ISBN
query never falls back.  For Google Books the same holds, except that
the fallback fires only when the response lacks the `items` key —
a present-but-empty `items` array is returned as zero hits without
fallback (see the counterexample). -/
theorem c3_fallback_widening {Item : Type}
    (fetch : String → SearchType → Option String → OLResp)
    (head : String → Option HeadResp)
    (gfetch : String → Option String → GBResp Item)
    (query : String) (stype : SearchType) (l : String)
    (hl : l ≠ "") (hstype : stype ≠ SearchType.isbn) :
    ((fetch query stype (some l) = OLResp.ok none ∨
      fetch query stype (some l) = OLResp.ok (some [])) →
      ol_search_book fetch head query stype (some l)
        = ((query, stype, some l) ::
            (ol_search_book fetch head query stype none).1,
           (ol_search_book fetch head query stype none).2)) ∧
    ((ol_search_book fetch head query stype none).1 = [(query, stype, none)]) ∧
    ((ol_search_book fetch head query SearchType.isbn (some l)).1
        = [(query, SearchType.isbn, some l)]) ∧
    ((gfetch (gbSearchQuery query stype) (some l) = GBResp.ok none →
      gb_search_book gfetch query stype (some l)
        = ((gbSearchQuery query stype, some l) ::
            (gb_search_book gfetch query stype none).1,
           (gb_search_book gfetch query stype none).2)) ∧
     ((gb_search_book gfetch query stype none).1
        = [(gbSearchQuery query stype, none)]) ∧
     ((gb_search_book gfetch query SearchType.isbn (some l)).1
        = [(gbSearchQuery query SearchType.isbn, some l)])) := by
  refine ⟨?_, ?_, ?_, ?_, ?_, ?_⟩
  · intro hf
    have hatt : ol_attempt fetch head query stype (some l) = OLAttempt.empty := by
      unfold ol_attempt
      rcases hf with hf | hf <;> rw [hf] <;> simp
    rw [ol_search_book]
    rw [hatt]
    simp [hl, hstype]
  · rcases h : ol_attempt fetch head query stype none <;>
      simp [ol_search_book, h]
  · rcases h : ol_attempt fetch head query SearchType.isbn (some l) <;>
      simp [ol_search_book, h]
  · intro hg
    rw [gb_search_book]
    rw [hg]
    simp [hl, hstype]
  · rcases h : gfetch (gbSearchQuery query stype) none with _ | ⟨_ | items⟩ <;>
      simp [gb_search_book, h]
  · rcases h : gfetch (gbSearchQuery query SearchType.isbn) (some l)
        with _ | ⟨_ | items⟩ <;>
      simp [gb_search_book, h]

/-- C3 witness OpenLibrary fetch: the locale-scoped query finds nothing,
the unscoped retry finds one hit. -/
def c3OlFetch : String → SearchType → Option String → OLResp :=
  fun _ _ lang =>
    match lang with
    | some _ => OLResp.ok (some [])
    | none => OLResp.ok (some [c2DocEn])

/-- C3 witness Google Books fetch: the locale-scoped response lacks the
items key, the unscoped retry carries one item. -/
def c3GbFetchW : String → Option String → GBResp Nat :=
  fun _ lang =>
    match lang with
    | some _ => GBResp.ok none
    | none => GBResp.ok (some [7])

/-- C3 witness probe: every HEAD request fails. -/
def c3Head : String → Option HeadResp := fun _ => none

/-- Witness for C3: both adapters issue exactly the locale-scoped query
followed by the identical unscoped query and surface the second
attempt's results. -/
theorem c3_witness :
    (ol_search_book c3OlFetch c3Head "Dune" SearchType.title (some "pol")
        = ([("Dune", SearchType.title, some "pol"), ("Dune", SearchType.title, none)],
           (ol_search_book c3OlFetch c3Head "Dune" SearchType.title none).2)) ∧
    (gb_search_book c3GbFetchW "Dune" SearchType.title (some "pl")
        = ([("intitle:Dune", some "pl"), ("intitle:Dune", none)],
           [7])) := by
  obtain ⟨h1, h2, _, _, _, _⟩ :=
    c3_fallback_widening c3OlFetch c3Head c3GbFetchW "Dune" SearchType.title
      "pol" (by decide) (by decide)
  constructor
  · have := h1 (Or.inr rfl)
    rw [this, h2]
  · obtain ⟨_, _, _, h4g, h5g, _⟩ :=
      c3_fallback_widening c3OlFetch c3Head c3GbFetchW "Dune" SearchType.title
        "pl" (by decide) (by decide)
    have := h4g rfl
    rw [this, h5g]
    simp [gb_search_book, c3GbFetchW]
    rfl

/-! ## C6: cover-URL verification invariant -/

theorem check_cover_exists_iff (head : String → Option HeadResp) (url : String) :
    check_cover_exists head url = true ↔
      (url ≠ "" ∧ ∃ r, head url = some r ∧ r.status = 200 ∧
        r.contentLength.getD 0 > 1000) := by
  unfold check_cover_exists
  by_cases hu : url = ""
  · subst hu
    rw [if_pos rfl]
    simp
  · rw [if_neg hu]
    rcases hh : head url with _ | r
    · simp [hu]
    · constructor
      · intro h
        simp only [decide_eq_true_eq] at h
        exact ⟨hu, r, rfl, h.1, h.2⟩
      · rintro ⟨-, r', hr', h1, h2⟩
        cases Option.some.inj hr'
        simp [h1, h2]

theorem str_ne_empty_of_left (a b : String) (h : a ≠ "") : (a ++ b) ≠ "" := by
  intro e
  have hl := congrArg String.length e
  rw [String.length_append] at hl
  have ha : 0 < a.length := by
    cases a with
    | mk d =>
      cases d with
      | nil => exact absurd rfl h
      | cons c t => exact Nat.succ_pos t.length
  have hz : String.length "" = 0 := rfl
  rw [hz] at hl
  omega

theorem idCoverUrl_ne_empty (cid : Int) (size : String) :
    idCoverUrl cid size ≠ "" := by
  unfold idCoverUrl
  exact str_ne_empty_of_left _ _ (str_ne_empty_of_left _ _
    (str_ne_empty_of_left _ _ (str_ne_empty_of_left _ _ (by decide))))

theorem isbnCoverUrl_ne_empty (isbn : String) (size : String) :
    isbnCoverUrl isbn size ≠ "" := by
  unfold isbnCoverUrl
  exact str_ne_empty_of_left _ _ (str_ne_empty_of_left _ _
    (str_ne_empty_of_left _ _ (str_ne_empty_of_left _ _ (by decide))))

theorem olidCoverUrl_ne_empty (bookId : String) (size : String) :
    olidCoverUrl bookId size ≠ "" := by
  unfold olidCoverUrl
  exact str_ne_empty_of_left _ _ (str_ne_empty_of_left _ _
    (str_ne_empty_of_left _ _ (str_ne_empty_of_left _ _ (by decide))))

theorem final_guard_verified (head : String → Option HeadResp) (r : BookResult) :
    ((if ¬optStrTruthy r.cover_url ∨
        ¬check_cover_exists head (r.cover_url.getD "") then
      { r with cover_url := none } else r).cover_url = none) ∨
    ∃ u, ((if ¬optStrTruthy r.cover_url ∨
        ¬check_cover_exists head (r.cover_url.getD "") then
      { r with cover_url := none } else r).cover_url = some u ∧
      check_cover_exists head u = true) := by
  split
  · exact Or.inl rfl
  · rename_i h
    push_neg at h
    obtain ⟨h1, h2⟩ := h
    rcases hcu : r.cover_url with _ | u
    · rw [hcu] at h1
      simp [optStrTruthy] at h1
    · rw [hcu] at h2
      exact Or.inr ⟨u, rfl, by simpa using h2⟩

/-- Every cover URL emitted by `_process_search_result` is `none` or has
passed the existence probe. -/
theorem process_cover_verified (head : String → Option HeadResp)
    (b : SearchDoc) :
    (process_search_result head b).cover_url = none ∨
    ∃ u, (process_search_result head b).cover_url = some u ∧
      check_cover_exists head u = true := by
  unfold process_search_result
  exact final_guard_verified head _

/-- First accepted candidate wins in `_process_search_result`: a truthy
cover id whose medium URL passes the probe is kept, the ISBN backup is
never consulted. -/
theorem process_first_candidate (head : String → Option HeadResp) (b : SearchDoc)
    (cid : Int) (hcid : b.cover_i = some cid) (hc0 : cid ≠ 0)
    (hchk : check_cover_exists head (idCoverUrl cid "M") = true) :
    (process_search_result head b).cover_url = some (idCoverUrl cid "M") := by
  unfold process_search_result
  simp only [hcid]
  set r0 : BookResult :=
    { id := strReplace (b.key.getD "") "/works/" ""
      title := b.title.getD "Unknown Title"
      authors := b.author_name.getD []
      first_publish_year := b.first_publish_year
      cover_id := some cid
      isbn := b.isbn.getD []
      languages := b.language.getD []
      publishers := b.publisher.getD []
      edition_count := b.edition_count.getD 0
      cover_urls := []
      cover_url := none } with hr0
  have h1 : coverIdTruthy r0.cover_id = true := by
    simp [coverIdTruthy, hr0, hc0]
  rw [if_pos h1]
  have hgd : r0.cover_id.getD 0 = cid := by simp [hr0]
  rw [hgd]
  set r1 : BookResult :=
    { r0 with cover_urls := idCoverUrls cid
              cover_url := some (idCoverUrl cid "M") } with hr1
  have hmed : lookupD r1.cover_urls "medium" "" = idCoverUrl cid "M" := by
    simp [hr1, idCoverUrls, lookupD, List.lookup]
  have h2 : ¬((¬(coverIdTruthy r1.cover_id = true) ∨
      ¬(check_cover_exists head (lookupD r1.cover_urls "medium" "") = true)) ∧
      r1.isbn ≠ []) := by
    rw [hmed]
    rintro ⟨h | h, -⟩
    · apply h
      simp [hr1, hr0, coverIdTruthy, hc0]
    · exact h hchk
  rw [if_neg h2]
  have h3 : ¬(¬(optStrTruthy r1.cover_url = true) ∨
      ¬(check_cover_exists head (r1.cover_url.getD "") = true)) := by
    rintro (h | h)
    · apply h
      simp [hr1, optStrTruthy, idCoverUrl_ne_empty]
    · apply h
      simpa [hr1] using hchk
  rw [if_neg h3]

theorem opt_guard_verified (head : String → Option HeadResp)
    (u3 : Option String) :
    (if ¬optStrTruthy u3 ∨ ¬check_cover_exists head (u3.getD "") then none
      else u3) = none ∨
    ∃ u, (if ¬optStrTruthy u3 ∨ ¬check_cover_exists head (u3.getD "") then none
      else u3) = some u ∧ check_cover_exists head u = true := by
  split
  · exact Or.inl rfl
  · rename_i h
    push_neg at h
    obtain ⟨h1, h2⟩ := h
    rcases hu : u3 with _ | u
    · rw [hu] at h1
      simp [optStrTruthy] at h1
    · rw [hu] at h2
      exact Or.inr ⟨u, rfl, by simpa using h2⟩

/-- The detail-hydration cover chain only emits probed URLs. -/
theorem details_cover_chain_verified (head : String → Option HeadResp)
    (bookId : String) (coverId : Option Int) (isbn : List String) :
    (details_cover_chain head bookId coverId isbn).2 = none ∨
    ∃ u, (details_cover_chain head bookId coverId isbn).2 = some u ∧
      check_cover_exists head u = true := by
  unfold details_cover_chain
  exact opt_guard_verified head _

theorem check_cover_exists_empty (head : String → Option HeadResp) :
    check_cover_exists head "" = false := by
  simp [check_cover_exists]

theorem details_chain_id_first (head : String → Option HeadResp) (bookId : String)
    (cid : Int) (isbn : List String) (hc0 : cid ≠ 0)
    (hchk : check_cover_exists head (idCoverUrl cid "L") = true) :
    (details_cover_chain head bookId (some cid) isbn).2
      = some (idCoverUrl cid "L") := by
  unfold details_cover_chain
  simp [coverIdTruthy, hc0, idCoverUrls, lookupD, List.lookup, hchk,
    optStrTruthy, idCoverUrl_ne_empty]

theorem details_chain_isbn_second (head : String → Option HeadResp) (bookId : String)
    (coverId : Option Int) (i : String) (rest : List String)
    (hfail : coverIdTruthy coverId = false ∨
      check_cover_exists head (idCoverUrl (coverId.getD 0) "L") = false)
    (hchk : check_cover_exists head (isbnCoverUrl i "L") = true) :
    (details_cover_chain head bookId coverId (i :: rest)).2
      = some (isbnCoverUrl i "L") := by
  unfold details_cover_chain
  by_cases hct : coverIdTruthy coverId = true
  · have hidf : check_cover_exists head (idCoverUrl (coverId.getD 0) "L") = false := by
      rcases hfail with h | h
      · rw [hct] at h
        cases h
      · exact h
    simp [hct, hidf, idCoverUrls, lookupD, List.lookup, hchk,
      optStrTruthy, isbnCoverUrl_ne_empty]
  · have hcf : coverIdTruthy coverId = false := by
      cases h : coverIdTruthy coverId
      · rfl
      · exact absurd h hct
    simp [hcf, lookupD, List.lookup, hchk, optStrTruthy, isbnCoverUrl_ne_empty,
      check_cover_exists_empty]

theorem details_chain_olid_third (head : String → Option HeadResp)
    (bookId : String) (hbk : bookId ≠ "")
    (hchk : check_cover_exists head (olidCoverUrl bookId "L") = true) :
    (details_cover_chain head bookId none []).2
      = some (olidCoverUrl bookId "L") := by
  unfold details_cover_chain
  simp [coverIdTruthy, lookupD, hbk, hchk, optStrTruthy, olidCoverUrl_ne_empty]

theorem details_chain_none (head : String → Option HeadResp) (bookId : String)
    (hchk : check_cover_exists head (olidCoverUrl bookId "L") = false) :
    (details_cover_chain head bookId none []).2 = none := by
  unfold details_cover_chain
  by_cases hbk : bookId = ""
  · simp [coverIdTruthy, lookupD, hbk, optStrTruthy]
  · simp [coverIdTruthy, lookupD, hbk, hchk, optStrTruthy]

/-- Installing a Polish search hit's cover preserves the verification
invariant: only truthy (hence probed, by the `_process_search_result`
invariant) covers are installed. -/
theorem applySearchCover_verified (head : String → Option HeadResp)
    (r : BookDetails) (b : SearchDoc)
    (hr : r.cover_url = none ∨
      ∃ u, r.cover_url = some u ∧ check_cover_exists head u = true) :
    (applySearchCover r (process_search_result head b)).cover_url = none ∨
    ∃ u, (applySearchCover r (process_search_result head b)).cover_url = some u ∧
      check_cover_exists head u = true := by
  unfold applySearchCover
  split
  · rename_i htr
    rcases process_cover_verified head b with hnone | ⟨u, hu, hchk⟩
    · rw [hnone] at htr
      simp [optStrTruthy] at htr
    · split
      · exact Or.inr ⟨u, by simpa using hu, hchk⟩
      · exact Or.inr ⟨u, by simpa using hu, hchk⟩
  · exact hr

/-- The closing Polish-search override preserves the cover invariant. -/
theorem polishSearchOverride_verified (head : String → Option HeadResp)
    (findPolish directSearch : String → Option String → Option SearchDoc)
    (work : OLWork) (pe : Option OLEdition) (authors : List String)
    (base : BookDetails)
    (hb : base.cover_url = none ∨
      ∃ u, base.cover_url = some u ∧ check_cover_exists head u = true) :
    (polishSearchOverride head findPolish directSearch work pe authors
        base).cover_url = none ∨
    ∃ u, (polishSearchOverride head findPolish directSearch work pe authors
        base).cover_url = some u ∧ check_cover_exists head u = true := by
  unfold polishSearchOverride
  split
  · dsimp only
    split
    · rename_i ds heq
      by_cases htsu : (strContains (work.title.getD "") "Tsukuru Tazaki" = true ∨
          strContains (work.title.getD "") "多崎つくる" = true)
      · rw [if_pos htsu] at heq
        obtain ⟨doc, -, rfl⟩ := Option.map_eq_some'.mp heq
        exact applySearchCover_verified head _ doc (by simpa using hb)
      · rw [if_neg htsu] at heq
        cases heq
    · split
      · rename_i pb heq2
        obtain ⟨doc, -, rfl⟩ := Option.map_eq_some'.mp heq2
        exact applySearchCover_verified head _ doc (by simpa using hb)
      · exact hb
  · exact hb

/-- Detail hydration only hands on probed cover URLs. -/
theorem get_book_details_core_cover_verified
    (editionDetail : String → Option OLEdition)
    (authorFetch : String → Option AuthorData)
    (head : String → Option HeadResp)
    (findPolish directSearch : String → Option String → Option SearchDoc)
    (bookId : String) (work : OLWork) (entries : List OLEdition) :
    (get_book_details_core editionDetail authorFetch head findPolish
        directSearch bookId work entries).cover_url = none ∨
    ∃ u, (get_book_details_core editionDetail authorFetch head findPolish
        directSearch bookId work entries).cover_url = some u ∧
      check_cover_exists head u = true := by
  unfold get_book_details_core
  apply polishSearchOverride_verified
  exact details_cover_chain_verified head bookId _ _

/-- Claim C6: the probe accepts a URL only on a 200 response with a
declared content length above 1000 bytes (false on exceptions and falsy
URLs); every cover URL handed onward by search-result processing or
detail hydration is `none` or probe-verified; candidates are taken in
ranked order (internal cover id, then ISBN-derived, then the OLID
scheme), the first accepted candidate wins, and when the survivor fails
the probe the result is `none`. -/
theorem c6_cover_invariant :
    (∀ (head : String → Option HeadResp) (url : String),
      check_cover_exists head url = true ↔
        (url ≠ "" ∧ ∃ r, head url = some r ∧ r.status = 200 ∧
          r.contentLength.getD 0 > 1000)) ∧
    (∀ (head : String → Option HeadResp) (b : SearchDoc),
      (process_search_result head b).cover_url = none ∨
      ∃ u, (process_search_result head b).cover_url = some u ∧
        check_cover_exists head u = true) ∧
    (∀ (head : String → Option HeadResp) (b : SearchDoc) (cid : Int),
      b.cover_i = some cid → cid ≠ 0 →
      check_cover_exists head (idCoverUrl cid "M") = true →
      (process_search_result head b).cover_url = some (idCoverUrl cid "M")) ∧
    (∀ (head : String → Option HeadResp) (bookId : String)
        (coverId : Option Int) (isbn : List String),
      (details_cover_chain head bookId coverId isbn).2 = none ∨
      ∃ u, (details_cover_chain head bookId coverId isbn).2 = some u ∧
        check_cover_exists head u = true) ∧
    (∀ (head : String → Option HeadResp) (bookId : String) (cid : Int)
        (isbn : List String), cid ≠ 0 →
      check_cover_exists head (idCoverUrl cid "L") = true →
      (details_cover_chain head bookId (some cid) isbn).2
        = some (idCoverUrl cid "L")) ∧
    (∀ (head : String → Option HeadResp) (bookId : String)
        (coverId : Option Int) (i : String) (rest : List String),
      (coverIdTruthy coverId = false ∨
        check_cover_exists head (idCoverUrl (coverId.getD 0) "L") = false) →
      check_cover_exists head (isbnCoverUrl i "L") = true →
      (details_cover_chain head bookId coverId (i :: rest)).2
        = some (isbnCoverUrl i "L")) ∧
    (∀ (head : String → Option HeadResp) (bookId : String), bookId ≠ "" →
      check_cover_exists head (olidCoverUrl bookId "L") = true →
      (details_cover_chain head bookId none []).2
        = some (olidCoverUrl bookId "L")) ∧
    (∀ (head : String → Option HeadResp) (bookId : String),
      check_cover_exists head (olidCoverUrl bookId "L") = false →
      (details_cover_chain head bookId none []).2 = none) ∧
    (∀ (editionDetail : String → Option OLEdition)
        (authorFetch : String → Option AuthorData)
        (head : String → Option HeadResp)
        (findPolish directSearch : String → Option String → Option SearchDoc)
        (bookId : String) (work : OLWork) (entries : List OLEdition),
      (get_book_details_core editionDetail authorFetch head findPolish
          directSearch bookId work entries).cover_url = none ∨
      ∃ u, (get_book_details_core editionDetail authorFetch head findPolish
          directSearch bookId work entries).cover_url = some u ∧
        check_cover_exists head u = true) :=
  ⟨check_cover_exists_iff, process_cover_verified,
    fun head b cid h1 h2 h3 => process_first_candidate head b cid h1 h2 h3,
    details_cover_chain_verified,
    fun head bookId cid isbn h1 h2 =>
      details_chain_id_first head bookId cid isbn h1 h2,
    fun head bookId coverId i rest h1 h2 =>
      details_chain_isbn_second head bookId coverId i rest h1 h2,
    fun head bookId h1 h2 => details_chain_olid_third head bookId h1 h2,
    details_chain_none,
    get_book_details_core_cover_verified⟩

/-- C6 witness probe: only the id-keyed medium cover resolves, with a
200 response of 2000 declared bytes. -/
def c6Head : String → Option HeadResp :=
  fun u => if u = idCoverUrl 5 "M" then some { status := 200, contentLength := some 2000 }
    else none

/-- C6 witness document carrying cover id 5. -/
def c6Doc : SearchDoc :=
  { key := some "/works/OL9W", title := some "Solaris", author_name := none
    first_publish_year := none, cover_i := some 5, isbn := some ["8307019028"]
    language := none, publisher := none, edition_count := none }

/-- Witness for C6: the first ranked candidate passes the probe and is
kept. -/
theorem c6_witness :
    check_cover_exists c6Head (idCoverUrl 5 "M") = true ∧
    (process_search_result c6Head c6Doc).cover_url = some (idCoverUrl 5 "M") :=
  ⟨by decide,
    c6_cover_invariant.2.2.1 c6Head c6Doc 5 rfl (by decide) (by decide)⟩

/-! ## C7: hydration and missing titles -/

theorem polishSearchOverride_no_authors (head : String → Option HeadResp)
    (fp ds : String → Option String → Option SearchDoc) (work : OLWork)
    (pe : Option OLEdition) (base : BookDetails) :
    polishSearchOverride head fp ds work pe [] base = base := by
  unfold polishSearchOverride
  simp

theorem core_default_title (ed : String → Option OLEdition)
    (af : String → Option AuthorData) (head : String → Option HeadResp)
    (fp ds : String → Option String → Option SearchDoc)
    (bookId : String) (work : OLWork) (entries : List OLEdition)
    (htitle : work.title = none) (hauth : work.authors = none)
    (hcol : collectPolishEditions entries = []) :
    (get_book_details_core ed af head fp ds bookId work entries).title
      = "Unknown Title" := by
  unfold get_book_details_core
  simp only [htitle, hauth, hcol]
  simp [selectPolishEdition, polishOverride, resolveAuthors,
    polishSearchOverride_no_authors]

/-- C7 counterexample work record: the detail endpoint yields no title
(and no authors). -/
def c7Work : OLWork :=
  { title := none, description := none, subjects := none
    first_publish_date := none, authors := none, covers := none }

/-- Claim C7 counterexample: with a successfully-fetched work record
that has no title, hydration returns a record with the placeholder
title `"Unknown Title"` — not a not-found outcome. -/
theorem c7_counterexample :
    (get_book_details (fun _ => none) (fun _ => none) (fun _ => none)
        (fun _ _ => none) (fun _ _ => none) "OL1W" (some c7Work)
        (some [])).map (fun r => r.title) = some "Unknown Title" ∧
    (get_book_details (fun _ => none) (fun _ => none) (fun _ => none)
        (fun _ _ => none) (fun _ _ => none) "OL1W" (some c7Work)
        (some [])) ≠ none :=
  ⟨rfl, by decide⟩

/-- Claim C7 (amended): hydration returns a not-found outcome exactly
when a primary fetch (work or editions request; the volume request for
Google Books) fails.  When the detail data merely lacks a title, the
OpenLibrary path substitutes the placeholder `"Unknown Title"` and the
Google Books path passes the absent title through unchanged — neither
returns a not-found outcome. -/
theorem c7_title_handling :
    (∀ (ed : String → Option OLEdition) (af : String → Option AuthorData)
        (head : String → Option HeadResp)
        (fp ds : String → Option String → Option SearchDoc)
        (bookId : String) (work? : Option OLWork)
        (editions? : Option (List OLEdition)),
      (get_book_details ed af head fp ds bookId work? editions?).isSome
        ↔ (work?.isSome ∧ editions?.isSome)) ∧
    (∀ (ed : String → Option OLEdition) (af : String → Option AuthorData)
        (head : String → Option HeadResp)
        (fp ds : String → Option String → Option SearchDoc)
        (bookId : String) (work : OLWork) (entries : List OLEdition),
      work.title = none → work.authors = none →
      collectPolishEditions entries = [] →
      (get_book_details_core ed af head fp ds bookId work entries).title
        = "Unknown Title") ∧
    (∀ v? : Option GBVolume, (gb_full_details v?).isSome ↔ v?.isSome) ∧
    (∀ v : GBVolume, ∃ r, gb_full_details (some v) = some r ∧
      r.title = (v.volumeInfo.getD emptyVolumeInfo).title) := by
  refine ⟨?_, core_default_title, ?_, fun v => ⟨_, rfl, rfl⟩⟩
  · intro ed af head fp ds bookId work? editions?
    rcases work? with _ | w <;> rcases editions? with _ | es <;>
      simp [get_book_details]
  · intro v?
    rcases v? with _ | v <;> simp [gb_full_details]

/-- Witness for C7 at concrete inputs with no title anywhere. -/
theorem c7_witness :
    (get_book_details_core (fun _ => none) (fun _ => none) (fun _ => none)
        (fun _ _ => none) (fun _ _ => none) "OL1W" c7Work []).title
      = "Unknown Title" :=
  c7_title_handling.2.1 (fun _ => none) (fun _ => none) (fun _ => none)
    (fun _ _ => none) (fun _ _ => none) "OL1W" c7Work [] rfl rfl rfl

/-! ## C8: adapter error handling -/

/-- Claim C8 counterexample: a well-formed 2xx JSON response that simply
lacks the `success` key makes the SteamGridDB adapter raise `KeyError`
(`data["success"]`) past the adapter boundary instead of returning an
empty list. -/
theorem c8_counterexample :
    sgdb_search_game (Except.ok
        ({ success := none, data := none, errors := none } : SGDBBody Unit))
      = Except.error (PyError.keyError "success") := rfl

/-- Claim C8 (amended): transport failures, non-2xx statuses and JSON
decode errors are caught and yield an empty list in both adapters; on
`success = false` SteamGridDB returns an empty list when the `errors`
key is absent (the `.get` default `['Unknown error']` is subscripted
instead) or holds a non-empty list, but raises `IndexError` when it
holds an empty list; the Jikan adapter never lets an exception escape
(a missing `data` key yields an empty list), while SteamGridDB also
raises `KeyError` when a syntactically valid response lacks the
`success` key, or declares success without a `data` key. -/
theorem c8_adapter_errors {Item : Type} :
    (∀ e : TransportError,
      sgdb_search_game (Except.error e : Except TransportError (SGDBBody Item))
        = Except.ok []) ∧
    (∀ body : SGDBBody Item, body.success = some false → body.errors = none →
      sgdb_search_game (Except.ok body) = Except.ok []) ∧
    (∀ (body : SGDBBody Item) (e : String) (es : List String),
      body.success = some false → body.errors = some (e :: es) →
      sgdb_search_game (Except.ok body) = Except.ok []) ∧
    (∀ body : SGDBBody Item, body.success = some false →
      body.errors = some [] →
      sgdb_search_game (Except.ok body) = Except.error PyError.indexError) ∧
    (∀ (body : SGDBBody Item) (items : List Item), body.success = some true →
      body.data = some items →
      sgdb_search_game (Except.ok body) = Except.ok items) ∧
    (∀ body : SGDBBody Item, body.success = none →
      sgdb_search_game (Except.ok body)
        = Except.error (PyError.keyError "success")) ∧
    (∀ body : SGDBBody Item, body.success = some true → body.data = none →
      sgdb_search_game (Except.ok body)
        = Except.error (PyError.keyError "data")) ∧
    (∀ e : TransportError,
      jikan_search_anime (Except.error e : Except TransportError (JikanBody Item))
        = Except.ok []) ∧
    (∀ body : JikanBody Item, body.data = none →
      jikan_search_anime (Except.ok body) = Except.ok []) ∧
    (∀ (body : JikanBody Item) (items : List Item), body.data = some items →
      jikan_search_anime (Except.ok body) = Except.ok items) ∧
    (∀ resp : Except TransportError (JikanBody Item),
      ∃ l, jikan_search_anime resp = Except.ok l) := by
  refine ⟨fun e => rfl, ?_, ?_, ?_, ?_, ?_, ?_, fun e => rfl, ?_, ?_, ?_⟩
  · intro body h1 h2
    simp [sgdb_search_game, h1, h2]
  · intro body e es h1 h2
    simp [sgdb_search_game, h1, h2]
  · intro body h1 h2
    simp [sgdb_search_game, h1, h2]
  · intro body items h1 h2
    simp [sgdb_search_game, h1, h2]
  · intro body h
    simp [sgdb_search_game, h]
  · intro body h1 h2
    simp [sgdb_search_game, h1, h2]
  · intro body h
    simp [jikan_search_anime, h]
  · intro body items h
    simp [jikan_search_anime, h]
  · intro resp
    rcases resp with e | body
    · exact ⟨[], rfl⟩
    · rcases h : body.data with _ | items
      · exact ⟨[], by simp [jikan_search_anime, h]⟩
      · exact ⟨items, by simp [jikan_search_anime, h]⟩

/-- Witness for C8 at concrete bodies over `Unit` items. -/
theorem c8_witness :
    sgdb_search_game (Except.error TransportError.requestException
        : Except TransportError (SGDBBody Unit)) = Except.ok [] ∧
    sgdb_search_game (Except.ok
        ({ success := some false, data := none, errors := none }
          : SGDBBody Unit)) = Except.ok [] ∧
    sgdb_search_game (Except.ok
        ({ success := some false, data := none, errors := some ["bad key"] }
          : SGDBBody Unit)) = Except.ok [] ∧
    sgdb_search_game (Except.ok
        ({ success := some false, data := none, errors := some [] }
          : SGDBBody Unit)) = Except.error PyError.indexError ∧
    sgdb_search_game (Except.ok
        ({ success := some true, data := some [()], errors := none }
          : SGDBBody Unit)) = Except.ok [()] ∧
    jikan_search_anime (Except.ok ({ data := none } : JikanBody Unit))
      = Except.ok [] := by
  obtain ⟨h1, h2, h3, h4, h5, _, _, _, h9, _, _⟩ := @c8_adapter_errors Unit
  exact ⟨h1 TransportError.requestException, h2 _ rfl rfl,
    h3 _ "bad key" [] rfl rfl, h4 _ rfl rfl, h5 _ [()] rfl rfl, h9 _ rfl⟩

end GameTracker
